import Mathlib

/-!
Verification of the envelope codec and typed-message dispatch system of the
edge-communication-protocol repository.

The development shallowly embeds the Rust sources:

* `avro_rs::types::Value` is embedded as the inductive `AvroValue`; Rust
  `HashMap<String, String>` fields and `Value::Map` payloads are embedded as
  association lists (`List (String × AvroValue)` / `List (String × String)`),
  matching the order-insensitive structural equality of the originals up to
  the iteration order fixed by the list.
* Machine integers are embedded as `Int`/`Nat` with explicit wrap-around
  casts (`u64_as_i64`, `i64_as_u64`, `as_i16_wrap`, `i64_as_u128`) at exactly
  the places the source casts.
* A Rust function that can `panic!` (or hit a panicking slice operation) is
  embedded as an `Option`-valued function; `none` models the panic.
* The avro binary datum codec (`to_avro_datum` / `from_avro_datum`) and the
  schema description files are external to this repository per the spec
  (schema parsing and wire layout are consumed as an opaque black box).  The
  envelope round-trip functions are therefore stated at the
  `(schema_name, generic value)` level, and `read_protocol_message` is
  parameterised by an abstract datum decoder.
-/

namespace Proto

/-- Embedding of `avro_rs::types::Value` (the variants used by this
repository): records and maps are association lists in field order. -/
inductive AvroValue : Type where
  | int (v : Int)
  | long (v : Int)
  | boolean (v : Bool)
  | bytes (v : List Nat)
  | string (v : String)
  | enum (idx : Nat) (sym : String)
  | array (items : List AvroValue)
  | map (entries : List (String × AvroValue))
  | record (fields : List (String × AvroValue))

/-- `TRACK_NAME_MAX_LENGTH` from `src/primitives.rs` / `src/lib.rs`. -/
def TRACK_NAME_MAX_LENGTH : Nat := 16

/-- `STREAM_NAME_MAX_LENGTH` from `src/primitives.rs` / `src/lib.rs`. -/
def STREAM_NAME_MAX_LENGTH : Nat := 16

/-- `TrackType` from `src/primitives.rs` (also `src/lib.rs`):
`Video`, `Meta`, plus the `NotImplemented` fallback. -/
inductive TrackType : Type where
  | video
  | meta
  | notImplemented
  deriving DecidableEq, Repr

/-- `fill_byte_array` from `src/utils.rs` (same body in `src/protocol.rs`):

```rust
let len = std::cmp::min(buf.len(), from.len());
buf[..len].clone_from_slice(from.as_slice());
```

`clone_from_slice` panics unless the destination slice `buf[..len]` and the
source slice (the *whole* of `from`) have equal length, i.e. unless
`from.len() = len`; the panic is modelled as `none`.  On the non-panicking
side the first `len` bytes of `buf` are replaced by `from` and the rest of
`buf` is kept. -/
def fill_byte_array (buf «from» : List Nat) : Option (List Nat) :=
  let len := min buf.length «from».length
  if «from».length = len then
    some («from».take len ++ buf.drop len)
  else
    none

/-- `get_empty_track_name` from `src/primitives.rs`: `[0; TRACK_NAME_MAX_LENGTH]`. -/
def get_empty_track_name : List Nat := List.replicate TRACK_NAME_MAX_LENGTH 0

/-- `pack_track_name` from `src/primitives.rs` lines 96-109 (same body in
`src/lib.rs` lines 47-60).  The `&str` argument is embedded by its UTF-8
bytes; `track_name.len()` is its byte length.  Here
`buf[..name_len].clone_from_slice(track_name.as_bytes())` copies slices of
equal length `name_len`, so no panic is possible. -/
def pack_track_name (track_name : List Nat) : Except String (List Nat) :=
  let name_len := track_name.length
  if TRACK_NAME_MAX_LENGTH < name_len then
    .error "Invalid track name length. Must me less than 16 characters."
  else
    .ok (track_name ++ get_empty_track_name.drop name_len)

/-- `track_type_literal_to_track_type` from `src/primitives.rs` lines 124-130
(identical copies in `src/protocol.rs` and `src/protocol/mod.rs`). -/
def track_type_literal_to_track_type (literal : String) : TrackType :=
  if literal = "VIDEO" then .video
  else if literal = "META" then .meta
  else .notImplemented

/-- `Unit` from `src/primitives.rs` (same fields in `src/protocol.rs`):
the identity quadruple.  `StreamName`/`TrackName` are `[u8; 16]`, embedded
as byte lists whose well-formed values have length 16; `unit` is `i64`. -/
structure Unit : Type where
  stream_name : List Nat
  track_name : List Nat
  track_type : TrackType
  unit : Int
  deriving DecidableEq, Repr

/-- `Unit::new` from `src/primitives.rs` lines 134-148 (the `src/protocol.rs`
lines 37-44 variant takes the same inputs and performs the same two
`fill_byte_array` calls into zeroed 16-byte buffers): `none` models the
`clone_from_slice` panic inside `fill_byte_array`. -/
def Unit.new (stream_name track_name : List Nat) (track_type : String)
    (unit : Int) : Option Unit :=
  match fill_byte_array (List.replicate STREAM_NAME_MAX_LENGTH 0) stream_name,
      fill_byte_array (List.replicate TRACK_NAME_MAX_LENGTH 0) track_name with
  | some b_stream_name, some b_track_name =>
      some { stream_name := b_stream_name, track_name := b_track_name,
             track_type := track_type_literal_to_track_type track_type,
             unit := unit }
  | _, _ => none

/-- `TrackInfo` from `src/primitives.rs` / `src/lib.rs`. -/
structure TrackInfo : Type where
  track_type : TrackType
  track_name : List Nat
  deriving DecidableEq, Repr

/-- `Payload` from `src/primitives.rs` / `src/lib.rs`; the
`HashMap<String, String>` of attributes is embedded as an association list. -/
structure Payload : Type where
  data : List Nat
  attributes : List (String × String)
  deriving DecidableEq, Repr

/-- `NotifyType` from `src/protocol.rs` lines 47-52 (`ElementType = i16`). -/
inductive NotifyType : Type where
  | ready (element : Int)
  | new
  | notImplemented
  deriving DecidableEq, Repr

/-- `PingRequestResponseType` from `src/protocol.rs` lines 54-58 — only
`REQUEST` and `RESPONSE`; this enum has no fallback variant (the
`src/objects/services/ping.rs` variant `Request`/`Response` is identical up
to naming). -/
inductive PingRequestResponseType : Type where
  | request
  | response
  deriving DecidableEq, Repr

/-- `Message` from `src/protocol.rs` lines 60-125 (the flat variant whose
`ServicesFFprobeResponse` carries `request_id` and `streams` only).
`u64`/`u128` fields are embedded as `Nat`, `i64`/`i16` fields as `Int`. -/
inductive Message : Type where
  | streamTracksResponse (request_id : Int) (stream_name : List Nat)
      (tracks : List TrackInfo)
  | streamTracksRequest (request_id : Int) (topic : String)
      (stream_name : List Nat)
  | unitElementMessage (stream_unit : Unit) (element : Int)
      (value : List Nat) (attributes : List (String × String)) (last : Bool)
  | notifyMessage (stream_unit : Unit) (saved_ms : Nat)
      (notify_type : NotifyType)
  | streamTrackUnitElementsRequest (request_id : Int) (topic : String)
      (stream_unit : Unit) (max_element : Int)
  | streamTrackUnitElementsResponse (request_id : Int) (stream_unit : Unit)
      (values : List Payload)
  | streamTrackUnitsRequest (request_id : Int) (topic : String)
      (stream_unit : Unit) (from_ms : Nat) (to_ms : Nat)
  | streamTrackUnitsResponse (request_id : Int) (stream_unit : Unit)
      (from_ms : Nat) (to_ms : Nat) (units : List Int)
  | pingRequestResponse (request_id : Int) (topic : String)
      (mtype : PingRequestResponseType)
  | servicesFFprobeRequest (request_id : Int) (topic : String) (url : String)
      (attributes : List (String × String))
  | servicesFFprobeResponse (request_id : Int)
      (streams : List (List (String × String)))
  | parsingError (msg : String)
  deriving DecidableEq, Repr

/-! ### Machine-integer casts

The explicit wrap-around casts performed by the source. -/

/-- Largest `i64` value, as a `Nat` (bound used by `i64::try_from` on the
unsigned `u64`/`u128` inputs of this codec). -/
def I64_MAX : Nat := 2 ^ 63 - 1

/-- Rust `x as i64` applied to a `u64` value (two's-complement wrap). -/
def u64_as_i64 (n : Nat) : Int :=
  if n < 2 ^ 63 then (n : Int) else (n : Int) - 2 ^ 64

/-- Rust `x as u64` applied to an `i64` value (two's-complement wrap). -/
def i64_as_u64 (i : Int) : Nat := (i % 2 ^ 64).toNat

/-- Rust `x as i16` applied to a wider signed value (two's-complement wrap);
used where the source narrows `i64`/`i32` wire integers to `ElementType`. -/
def as_i16_wrap (i : Int) : Int := (i + 2 ^ 15) % 2 ^ 16 - 2 ^ 15

/-- Rust `x as u128` applied to an `i64` value (two's-complement wrap). -/
def i64_as_u128 (i : Int) : Nat := (i % 2 ^ 128).toNat

/-! ### Schema name constants

From `src/message_builder/mod.rs` lines 16-36 (the directory-style message
builder; the flat `src/message_builder.rs` names every schema in the
`insight.transport` namespace instead, an inessential renaming for the
dispatch logic, which only needs the names to be distinct and shared between
encoder and decoder). -/

def TRACK_INFO_SCHEMA : String := "insight.storage.TrackInfo.avsc"

def UNIT_ELEMENT_MESSAGE_SCHEMA : String := "insight.storage.UnitElementMessage.avsc"

def NOTIFY_MESSAGE_SCHEMA : String := "insight.transport.NotifyMessage.avsc"

def STREAM_TRACKS_REQUEST_SCHEMA : String := "insight.transport.StreamTracksRequest.avsc"

def STREAM_TRACKS_RESPONSE_SCHEMA : String := "insight.transport.StreamTracksResponse.avsc"

def STREAM_TRACK_UNIT_ELEMENTS_REQUEST_SCHEMA : String :=
  "insight.transport.StreamTrackUnitElementsRequest.avsc"

def STREAM_TRACK_UNIT_ELEMENTS_RESPONSE_SCHEMA : String :=
  "insight.transport.StreamTrackUnitElementsResponse.avsc"

def STREAM_TRACK_UNITS_REQUEST_SCHEMA : String :=
  "insight.transport.StreamTrackUnitsRequest.avsc"

def STREAM_TRACK_UNITS_RESPONSE_SCHEMA : String :=
  "insight.transport.StreamTrackUnitsResponse.avsc"

def MESSAGE_ENVELOPE_SCHEMA : String := "insight.transport.MessageEnvelope.avsc"

def PING_REQUEST_RESPONSE_SCHEMA : String := "insight.transport.PingRequestResponse.avsc"

def SERVICES_FFPROBE_REQUEST_SCHEMA : String := "insight.ffprobe.Request.avsc"

def SERVICES_FFPROBE_RESPONSE_SCHEMA : String := "insight.ffprobe.Response.avsc"

/-! ### Shared value helpers -/

/-- `value_to_string` from `src/utils.rs` lines 25-30 (identical private copy
in `src/protocol.rs` lines 8-13). -/
def value_to_string (v : AvroValue) : Option String :=
  match v with
  | .string s => some s
  | _ => none

/-- `gen_hash_map` from `src/utils.rs` lines 17-23: a string-to-string map
becomes a `Value::Map` of `Value::String`s. -/
def gen_hash_map (s : List (String × String)) : AvroValue :=
  .map (s.map fun kv => (kv.1, .string kv.2))

/-- The attribute-collection expression the decoders apply to a decoded
`Value::Map`, e.g. `src/protocol.rs` line 148:
`attributes.iter().map(|x| (x.0.clone(), value_to_string(x.1).or(Some(String::from(""))).unwrap())).collect()`
(`value_to_string(v).or(Some("")).unwrap()` is `(value_to_string v).getD ""`;
the `unwrap_or` spelling at `src/protocol.rs` line 481 is the same
function).  A non-string map value is silently replaced by `""`. -/
def attributes_to_strings (entries : List (String × AvroValue)) :
    List (String × String) :=
  entries.map fun x => (x.1, (value_to_string x.2).getD "")

/-- The `collect::<Option<Vec<_>>>`-style traversal pattern: Rust `for` loops
that abort (panic) on the first bad element are embedded by this sequencing
helper; `none` models the abort. -/
def map_all {α β : Type} (f : α → Option β) : List α → Option (List β)
  | [] => some []
  | x :: xs =>
      match f x with
      | some y => (map_all f xs).map fun ys => y :: ys
      | none => none

/-! ### Encode side: the message builders

From `src/message_builder/media_store.rs` (and identically
`src/message_builder.rs`).  `mb.get_record(schema)` + `record.put(name, v)`
assign values to the named fields of the schema, in the field order fixed by
the schema file; the schema files (`API/avro/protocol/...`) are not part of
`src/`, so the field order below is modelled from the decoder patterns each
record must satisfy (confirmed by the repository's round-trip tests) — the
only builder whose `put` order differs from the schema field order is
`build_notify_message`.  `pack_message_into_envelope` hands the record to
the external binary datum codec, which is out of scope per the spec (§1);
the builders are therefore embedded as producing the
`(schema_name, payload record)` pair that is packed. -/

/-- `get_track_type_enum` from `src/message_builder/media_store.rs` lines
13-19 (identical in `src/primitives.rs` lines 162-168 and
`src/message_builder.rs` lines 118-124, up to the panic string):
encoding the `NotImplemented` fallback panics, modelled as `none`. -/
def get_track_type_enum (track_type : TrackType) : Option AvroValue :=
  match track_type with
  | .video => some (.enum 0 "VIDEO")
  | .meta => some (.enum 1 "META")
  | .notImplemented => none

/-- `get_stream_unit` from `src/message_builder/media_store.rs` lines 21-33
(identical in `src/message_builder.rs` lines 126-138 and, as
`Unit::to_avro_record`, in `src/primitives.rs` lines 170-182). -/
def get_stream_unit (stream_name : List Nat) (track_type : TrackType)
    (track_name : List Nat) (unit : Int) : Option AvroValue :=
  (get_track_type_enum track_type).map fun tt =>
    .record [("stream_name", .bytes stream_name),
             ("track_name", .bytes track_name),
             ("track_type", tt),
             ("unit", .long unit)]

/-- `build_notify_message` from `src/message_builder/media_store.rs` lines
35-62.  `saved_ms: u64` is written as `Value::Long(saved_ms as i64)`;
`last_element` is written as `Value::Int` (`-1` for `New`).  Field order per
the `NotifyMessage` schema, which the loader pattern fixes as
`(stream_unit, last_element, saved_ms, notify_type)`. -/
def build_notify_message (stream_name : List Nat) (track_type : TrackType)
    (track_name : List Nat) (unit : Int) (saved_ms : Nat)
    (last_element : Option Int) : Option (String × AvroValue) :=
  (get_stream_unit stream_name track_type track_name unit).map fun su =>
    (NOTIFY_MESSAGE_SCHEMA,
     .record [("stream_unit", su),
              ("last_element",
                .int (match last_element with | some elt => elt | none => -1)),
              ("saved_ms", .long (u64_as_i64 saved_ms)),
              ("notify_type",
                match last_element with
                | some _ => .enum 0 "READY"
                | none => .enum 1 "NEW")])

/-- `build_unit_element_message` from `src/message_builder/media_store.rs`
lines 64-85 (`element: i16` widened into `Value::Long`). -/
def build_unit_element_message (stream_name : List Nat)
    (track_type : TrackType) (track_name : List Nat) (unit : Int)
    (element : Int) (value : List Nat) (attributes : List (String × String))
    (last : Bool) : Option (String × AvroValue) :=
  (get_stream_unit stream_name track_type track_name unit).map fun su =>
    (UNIT_ELEMENT_MESSAGE_SCHEMA,
     .record [("stream_unit", su),
              ("element", .long element),
              ("value", .bytes value),
              ("attributes", gen_hash_map attributes),
              ("last", .boolean last)])

/-- `build_stream_tracks_request` from `src/message_builder/media_store.rs`
lines 87-98 (no enum field: never panics). -/
def build_stream_tracks_request (request_id : Int) (topic : String)
    (stream_name : List Nat) : String × AvroValue :=
  (STREAM_TRACKS_REQUEST_SCHEMA,
   .record [("request_id", .long request_id),
            ("topic", .string topic),
            ("stream_name", .bytes stream_name)])

/-- `build_stream_tracks_response` from `src/message_builder/media_store.rs`
lines 100-120 (each track becomes a `TrackInfo` record `(name, type)`;
`get_track_type_enum` panics on the fallback variant). -/
def build_stream_tracks_response (request_id : Int) (stream_name : List Nat)
    (tracks : List (List Nat × TrackType)) : Option (String × AvroValue) :=
  (map_all (fun t => (get_track_type_enum t.2).map fun tt =>
      AvroValue.record [("name", .bytes t.1), ("type", tt)]) tracks).map
    fun trackVals =>
      (STREAM_TRACKS_RESPONSE_SCHEMA,
       .record [("request_id", .long request_id),
                ("stream_name", .bytes stream_name),
                ("tracks", .array trackVals)])

/-- `build_stream_track_unit_elements_request` from
`src/message_builder/media_store.rs` lines 122-141. -/
def build_stream_track_unit_elements_request (request_id : Int)
    (topic : String) (stream_name : List Nat) (track_type : TrackType)
    (track_name : List Nat) (unit : Int) (max_element : Int) :
    Option (String × AvroValue) :=
  (get_stream_unit stream_name track_type track_name unit).map fun su =>
    (STREAM_TRACK_UNIT_ELEMENTS_REQUEST_SCHEMA,
     .record [("request_id", .long request_id),
              ("topic", .string topic),
              ("stream_unit", su),
              ("max_element", .long max_element)])

/-- `payload_to_avro` from `src/message_builder/media_store.rs` lines
159-164 (nested inside `build_stream_track_unit_elements_response`; the
identical helper also appears in
`src/objects/services/storage/stream_track_unit_elements.rs`). -/
def payload_to_avro (p : Payload) : AvroValue :=
  .record [("data", .bytes p.data),
           ("attributes", .map (p.attributes.map fun x => (x.1, .string x.2)))]

/-- `build_stream_track_unit_elements_response` from
`src/message_builder/media_store.rs` lines 143-169. -/
def build_stream_track_unit_elements_response (request_id : Int)
    (stream_name : List Nat) (track_type : TrackType) (track_name : List Nat)
    (unit : Int) (values : List Payload) : Option (String × AvroValue) :=
  (get_stream_unit stream_name track_type track_name unit).map fun su =>
    (STREAM_TRACK_UNIT_ELEMENTS_RESPONSE_SCHEMA,
     .record [("request_id", .long request_id),
              ("stream_unit", su),
              ("values", .array (values.map payload_to_avro))])

/-- `build_stream_track_units_request` from
`src/message_builder/media_store.rs` lines 171-191 (identical in
`src/message_builder.rs` lines 296-316): the stream unit is built with the
constant sequence number `0`; `from_ms`/`to_ms` are the already-narrowed
`i64` values. -/
def build_stream_track_units_request (request_id : Int) (topic : String)
    (stream_name : List Nat) (track_type : TrackType) (track_name : List Nat)
    (from_ms to_ms : Int) : Option (String × AvroValue) :=
  (get_stream_unit stream_name track_type track_name 0).map fun su =>
    (STREAM_TRACK_UNITS_REQUEST_SCHEMA,
     .record [("request_id", .long request_id),
              ("topic", .string topic),
              ("stream_unit", su),
              ("from_ms", .long from_ms),
              ("to_ms", .long to_ms)])

/-- `build_stream_track_units_response` from
`src/message_builder/media_store.rs` lines 193-214: the stream unit is
likewise built with the constant sequence number `0`. -/
def build_stream_track_units_response (request_id : Int)
    (stream_name : List Nat) (track_type : TrackType) (track_name : List Nat)
    (from_ms to_ms : Int) (units : List Int) : Option (String × AvroValue) :=
  (get_stream_unit stream_name track_type track_name 0).map fun su =>
    (STREAM_TRACK_UNITS_RESPONSE_SCHEMA,
     .record [("request_id", .long request_id),
              ("stream_unit", su),
              ("from_ms", .long from_ms),
              ("to_ms", .long to_ms),
              ("units", .array (units.map fun x => .long x))])

/-- `build_ping_request_response` from `src/message_builder.rs` lines
177-187 (referenced by `Message::dump`; the directory variant encodes the
same record through `PingRequestResponse::save`). -/
def build_ping_request_response (request_id : Int) (topic : String)
    (is_response : Bool) : String × AvroValue :=
  (PING_REQUEST_RESPONSE_SCHEMA,
   .record [("request_id", .long request_id),
            ("topic", .string topic),
            ("type", if is_response then .enum 1 "RESPONSE"
                     else .enum 0 "REQUEST")])

/-- `build_services_ffprobe_request` from
`src/message_builder/services/ffprobe.rs` lines 30-37. -/
def build_services_ffprobe_request (request_id : Int) (topic : String)
    (url : String) (attributes : List (String × String)) :
    String × AvroValue :=
  (SERVICES_FFPROBE_REQUEST_SCHEMA,
   .record [("request_id", .long request_id),
            ("topic", .string topic),
            ("url", .string url),
            ("attributes", gen_hash_map attributes)])

/-- Modelled from the spec: the two-field ffprobe response builder invoked by
`Message::dump` in `src/protocol.rs` line 614
(`mb.build_services_ffprobe_response(*request_id, streams.clone())`) is not
present under `src/`; per spec §4.3 the encoder writes the fields the
decoder `Message::load_services_ffprobe_response` (`src/protocol.rs` lines
469-497) reads back: `request_id` and the `streams` array of string maps
(`gen_hash_map`, as in the richer builder of
`src/message_builder/services/ffprobe.rs` lines 39-46). -/
def build_services_ffprobe_response (request_id : Int)
    (streams : List (List (String × String))) : String × AvroValue :=
  (SERVICES_FFPROBE_RESPONSE_SCHEMA,
   .record [("request_id", .long request_id),
            ("streams", .array (streams.map gen_hash_map))])

/-! ### Decode side: the per-message loaders

From `src/protocol.rs` lines 128-497 (the directory copies in
`src/message_builder/media_store.rs` lines 216-512 and
`src/message_builder/services/ffprobe.rs` are the same functions).  Rust
slice patterns over the decoded record's fields ignore the field names
(`(_, Value::Long(x))`); a panicking sub-step (`fill_byte_array` via
`Unit::new`, or the explicit `panic!` in the ffprobe response loader) makes
the embedded loader return `none`. -/

/-- `Message::load_unit_element_message` from `src/protocol.rs` lines
128-158. -/
def load_unit_element_message (value : AvroValue) : Option Message :=
  match value with
  | .record [(_, .record stream_unit_fields), (_, .long element),
      (_, .bytes value), (_, .map attributes), (_, .boolean last)] =>
      match stream_unit_fields with
      | [(_, .bytes stream_name), (_, .bytes track_name),
          (_, .enum _index track_type), (_, .long unit)] =>
          (Unit.new stream_name track_name track_type unit).map fun su =>
            .unitElementMessage su (as_i16_wrap element) value
              (attributes_to_strings attributes) last
      | _ => some (.parsingError "Unable to match AVRO Record to Unit")
  | .record _ =>
      some (.parsingError "Unable to match AVRO Record to to UnitElementMessage")
  | _ => some (.parsingError "Unable to match AVRO Record.")

/-- `Message::load_notify_message` from `src/protocol.rs` lines 160-191
(`saved_ms` read back as `*saved_ms as u64`; `last_element` narrowed
`as i16`; an enum literal other than `READY`/`NEW` becomes the
`NotImplemented` fallback). -/
def load_notify_message (value : AvroValue) : Option Message :=
  match value with
  | .record [(_, .record stream_unit_fields), (_, .int last_element),
      (_, .long saved_ms), (_, .enum _index notify_type)] =>
      match stream_unit_fields with
      | [(_, .bytes stream_name), (_, .bytes track_name),
          (_, .enum _index2 track_type), (_, .long unit)] =>
          (Unit.new stream_name track_name track_type unit).map fun su =>
            .notifyMessage su (i64_as_u64 saved_ms)
              (if notify_type = "READY" then .ready (as_i16_wrap last_element)
               else if notify_type = "NEW" then .new
               else .notImplemented)
      | _ => some (.parsingError "Unable to match AVRO Record to Unit")
  | .record _ =>
      some (.parsingError "Unable to match AVRO Record to to NotifyMessage")
  | _ => some (.parsingError "Unable to match AVRO Record.")

/-- `Message::load_stream_tracks_request` from `src/protocol.rs` lines
193-213 (`fill_byte_array` into a zeroed 16-byte buffer can panic on an
over-length wire identity). -/
def load_stream_tracks_request (value : AvroValue) : Option Message :=
  match value with
  | .record [(_, .long request_id), (_, .string topic),
      (_, .bytes stream_name)] =>
      (fill_byte_array (List.replicate STREAM_NAME_MAX_LENGTH 0)
          stream_name).map fun sn =>
        .streamTracksRequest request_id topic sn
  | .record _ =>
      some (.parsingError "Unable to match AVRO Record to to StreamTracksRequest")
  | _ => some (.parsingError "Unable to match AVRO Record.")

/-- `Message::load_ping_request_response` from `src/protocol.rs` lines
215-233: any enum literal other than `REQUEST` decodes to `RESPONSE` (the
enum has no fallback variant). -/
def load_ping_request_response (value : AvroValue) : Option Message :=
  match value with
  | .record [(_, .long request_id), (_, .string topic),
      (_, .enum _index ping_m_type)] =>
      some (.pingRequestResponse request_id topic
        (if ping_m_type = "REQUEST" then .request else .response))
  | .record _ =>
      some (.parsingError "Unable to match AVRO Record to to PingRequestResponse")
  | _ => some (.parsingError "Unable to match AVRO Record.")

/-- The per-element track mapper inside
`Message::load_stream_tracks_response` (`src/protocol.rs` lines 246-264):
outer `none` models the `fill_byte_array` panic, inner `none` is the
element's mapping failure counted by the loader. -/
def track_info_of_value (t : AvroValue) : Option (Option TrackInfo) :=
  match t with
  | .record [(_, .bytes track_name), (_, .enum _ track_type)] =>
      (fill_byte_array (List.replicate TRACK_NAME_MAX_LENGTH 0)
          track_name).map fun tn =>
        some { track_name := tn,
               track_type := track_type_literal_to_track_type track_type }
  | _ => some none

/-- `Message::load_stream_tracks_response` from `src/protocol.rs` lines
236-284: the mapped elements are filtered for `is_some` and the whole
message fails (`ParsingError`) when any element failed. -/
def load_stream_tracks_response (value : AvroValue) : Option Message :=
  match value with
  | .record [(_, .long request_id), (_, .bytes stream_name),
      (_, .array tracks)] =>
      (fill_byte_array (List.replicate STREAM_NAME_MAX_LENGTH 0)
          stream_name).bind fun sn =>
        (map_all track_info_of_value tracks).map fun track_records =>
          let valid_track_records := track_records.filterMap id
          if valid_track_records.length < track_records.length then
            .parsingError "Not all track info records are parsed well."
          else
            .streamTracksResponse request_id sn valid_track_records
  | .record _ =>
      some (.parsingError "Unable to match AVRO Record to to StreamTracksResponse")
  | _ => some (.parsingError "Unable to match AVRO Record.")

/-- `Message::load_stream_track_unit_elements_request` from
`src/protocol.rs` lines 286-314. -/
def load_stream_track_unit_elements_request (value : AvroValue) :
    Option Message :=
  match value with
  | .record [(_, .long request_id), (_, .string topic),
      (_, .record stream_unit_fields), (_, .long max_element)] =>
      match stream_unit_fields with
      | [(_, .bytes stream_name), (_, .bytes track_name),
          (_, .enum _index track_type), (_, .long unit)] =>
          (Unit.new stream_name track_name track_type unit).map fun su =>
            .streamTrackUnitElementsRequest request_id topic su
              (as_i16_wrap max_element)
      | _ => some (.parsingError "Unable to match AVRO Record to Unit")
  | .record _ =>
      some (.parsingError
        "Unable to match AVRO Record to to StreamTrackUnitElementsRequest")
  | _ => some (.parsingError "Unable to match AVRO Record.")

/-- `to_payload` from `src/protocol.rs` lines 330-346 (nested inside
`load_stream_track_unit_elements_response`; identical at
`src/message_builder/media_store.rs` lines 397-413): any shape other than a
two-field `(bytes, map)` record yields `None`; non-string map values are
silently replaced by `""` via `attributes_to_strings`. -/
def to_payload (v : AvroValue) : Option Payload :=
  match v with
  | .record [(_, .bytes data), (_, .map attributes)] =>
      some { data := data, attributes := attributes_to_strings attributes }
  | _ => none

/-- `Message::load_stream_track_unit_elements_response` from
`src/protocol.rs` lines 316-369. -/
def load_stream_track_unit_elements_response (value : AvroValue) :
    Option Message :=
  match value with
  | .record [(_, .long request_id), (_, .record stream_unit_fields),
      (_, .array values)] =>
      match stream_unit_fields with
      | [(_, .bytes stream_name), (_, .bytes track_name),
          (_, .enum _index track_type), (_, .long unit)] =>
          let values_parsed := (values.map to_payload).filterMap id
          if values_parsed.length < values.length then
            some (.parsingError "Not all payload values were parsed correctly")
          else
            (Unit.new stream_name track_name track_type unit).map fun su =>
              .streamTrackUnitElementsResponse request_id su values_parsed
      | _ => some (.parsingError "Unable to match AVRO Record to Unit")
  | .record _ =>
      some (.parsingError
        "Unable to match AVRO Record to to StreamTrackUnitElementsRequest")
  | _ => some (.parsingError "Unable to match AVRO Record.")

/-- `Message::load_stream_track_units_request` from `src/protocol.rs` lines
371-401 (`from_ms`/`to_ms` read back by the `i64 as u128` cast). -/
def load_stream_track_units_request (value : AvroValue) : Option Message :=
  match value with
  | .record [(_, .long request_id), (_, .string topic),
      (_, .record stream_unit_fields), (_, .long from_ms), (_, .long to_ms)] =>
      match stream_unit_fields with
      | [(_, .bytes stream_name), (_, .bytes track_name),
          (_, .enum _index track_type), (_, .long unit)] =>
          (Unit.new stream_name track_name track_type unit).map fun su =>
            .streamTrackUnitsRequest request_id topic su
              (i64_as_u128 from_ms) (i64_as_u128 to_ms)
      | _ => some (.parsingError "Unable to match AVRO Record to Unit")
  | .record _ =>
      some (.parsingError
        "Unable to match AVRO Record to to StreamTrackUnitsRequest")
  | _ => some (.parsingError "Unable to match AVRO Record.")

/-- The per-element mapper inside
`Message::load_stream_track_units_response` (`src/protocol.rs` lines
420-423): a unit entry must be a `Value::Long`. -/
def unit_of_value (x : AvroValue) : Option Int :=
  match x with
  | .long value => some value
  | _ => none

/-- `Message::load_stream_track_units_response` from `src/protocol.rs` lines
403-445. -/
def load_stream_track_units_response (value : AvroValue) : Option Message :=
  match value with
  | .record [(_, .long request_id), (_, .record stream_unit_fields),
      (_, .long from_ms), (_, .long to_ms), (_, .array units)] =>
      match stream_unit_fields with
      | [(_, .bytes stream_name), (_, .bytes track_name),
          (_, .enum _index track_type), (_, .long unit)] =>
          let units_parsed := (units.map unit_of_value).filterMap id
          if units_parsed.length < units.length then
            some (.parsingError "Not all payload units were parsed correctly")
          else
            (Unit.new stream_name track_name track_type unit).map fun su =>
              .streamTrackUnitsResponse request_id su
                (i64_as_u128 from_ms) (i64_as_u128 to_ms) units_parsed
      | _ => some (.parsingError "Unable to match AVRO Record to Unit")
  | .record _ =>
      some (.parsingError
        "Unable to match AVRO Record to to StreamTrackUnitsResponse")
  | _ => some (.parsingError "Unable to match AVRO Record.")

/-- `Message::load_services_ffprobe_request` from `src/protocol.rs` lines
447-467. -/
def load_services_ffprobe_request (value : AvroValue) : Option Message :=
  match value with
  | .record [(_, .long request_id), (_, .string topic), (_, .string url),
      (_, .map attributes)] =>
      some (.servicesFFprobeRequest request_id topic url
        (attributes_to_strings attributes))
  | .record _ =>
      some (.parsingError "Unable to match AVRO Record to to FFprobe Request")
  | _ => some (.parsingError "Unable to match AVRO Record.")

/-- The per-stream mapper inside
`Message::load_services_ffprobe_response` (`src/protocol.rs` lines
478-485): a stream entry that is not a `Value::Map` hits
`panic!("Unexpected structure found, stream attributes must be a map")`,
modelled as `none`. -/
def stream_attributes_of_value (s : AvroValue) :
    Option (List (String × String)) :=
  match s with
  | .map attributes => some (attributes_to_strings attributes)
  | _ => none

/-- `Message::load_services_ffprobe_response` from `src/protocol.rs` lines
469-497: the `for` loop over `streams` panics (outer `none`) on the first
non-map element. -/
def load_services_ffprobe_response (value : AvroValue) : Option Message :=
  match value with
  | .record [(_, .long request_id), (_, .array streams)] =>
      (map_all stream_attributes_of_value streams).map fun response_streams =>
        .servicesFFprobeResponse request_id response_streams
  | .record _ =>
      some (.parsingError "Unable to match AVRO Record to to FFprobe Response")
  | _ => some (.parsingError "Unable to match AVRO Record.")

/-- `Message::from` from `src/protocol.rs` lines 500-515: dispatch on the
schema name delivered by the envelope decode; an unregistered name becomes
`ParsingError(kind)`. -/
def Message.from (kind : String) (value : AvroValue) : Option Message :=
  if kind = UNIT_ELEMENT_MESSAGE_SCHEMA then load_unit_element_message value
  else if kind = NOTIFY_MESSAGE_SCHEMA then load_notify_message value
  else if kind = STREAM_TRACKS_REQUEST_SCHEMA then
    load_stream_tracks_request value
  else if kind = STREAM_TRACKS_RESPONSE_SCHEMA then
    load_stream_tracks_response value
  else if kind = STREAM_TRACK_UNIT_ELEMENTS_REQUEST_SCHEMA then
    load_stream_track_unit_elements_request value
  else if kind = STREAM_TRACK_UNIT_ELEMENTS_RESPONSE_SCHEMA then
    load_stream_track_unit_elements_response value
  else if kind = STREAM_TRACK_UNITS_REQUEST_SCHEMA then
    load_stream_track_units_request value
  else if kind = STREAM_TRACK_UNITS_RESPONSE_SCHEMA then
    load_stream_track_units_response value
  else if kind = PING_REQUEST_RESPONSE_SCHEMA then
    load_ping_request_response value
  else if kind = SERVICES_FFPROBE_REQUEST_SCHEMA then
    load_services_ffprobe_request value
  else if kind = SERVICES_FFPROBE_RESPONSE_SCHEMA then
    load_services_ffprobe_response value
  else some (.parsingError kind)

/-- The `{:?}` rendering of `i64::try_from(x)` interpolated into the
`Message::dump` error string (`src/protocol.rs` lines 584 and 600):
`Ok(v)` when the `u128` fits an `i64`, `Err(TryFromIntError(()))` otherwise. -/
def debug_try_from_i64 (x : Nat) : String :=
  if x ≤ I64_MAX then "Ok(" ++ toString x ++ ")" else "Err(TryFromIntError(()))"

/-- `Message::dump` from `src/protocol.rs` lines 517-619, stated at the
`(schema_name, payload record)` level (the byte-level envelope packing is
the external codec).  `none` models the panics reachable from `dump`
(encoding a `NotImplemented` track/notify kind); `Except.error` is its typed
`Err` channel.  The `StreamTrackUnits{Request,Response}` arms bind the
stream unit's sequence number as `unit: _` and narrow `from_ms`/`to_ms`
with `i64::try_from`.  The catch-all arm (reachable only for
`ParsingError`) renders the message through `format!("Message {:?} can not
be serialized", self)`; the embedding spells the `Debug` form of
`ParsingError(s)` directly. -/
def Message.dump : Message → Option (Except String (String × AvroValue))
  | .unitElementMessage su element value attributes last =>
      (build_unit_element_message su.stream_name su.track_type su.track_name
        su.unit element value attributes last).map .ok
  | .notifyMessage su saved_ms notify_type =>
      match notify_type with
      | .ready last_element =>
          (build_notify_message su.stream_name su.track_type su.track_name
            su.unit saved_ms (some last_element)).map .ok
      | .new =>
          (build_notify_message su.stream_name su.track_type su.track_name
            su.unit saved_ms none).map .ok
      | .notImplemented => none
  | .streamTracksRequest request_id topic stream_name =>
      some (.ok (build_stream_tracks_request request_id topic stream_name))
  | .pingRequestResponse request_id topic mtype =>
      match mtype with
      | .request =>
          some (.ok (build_ping_request_response request_id topic false))
      | .response =>
          some (.ok (build_ping_request_response request_id topic true))
  | .streamTracksResponse request_id stream_name tracks =>
      (build_stream_tracks_response request_id stream_name
        (tracks.map fun x => (x.track_name, x.track_type))).map .ok
  | .streamTrackUnitElementsRequest request_id topic su max_element =>
      (build_stream_track_unit_elements_request request_id topic
        su.stream_name su.track_type su.track_name su.unit max_element).map .ok
  | .streamTrackUnitElementsResponse request_id su values =>
      (build_stream_track_unit_elements_response request_id su.stream_name
        su.track_type su.track_name su.unit values).map .ok
  | .streamTrackUnitsRequest request_id topic su from_ms to_ms =>
      if from_ms ≤ I64_MAX ∧ to_ms ≤ I64_MAX then
        (build_stream_track_units_request request_id topic su.stream_name
          su.track_type su.track_name (from_ms : Int) (to_ms : Int)).map .ok
      else
        some (.error ("Unable to serialize from_ms (" ++
          debug_try_from_i64 from_ms ++ ")/to_ms (" ++
          debug_try_from_i64 to_ms ++ ") to AVRO Long field."))
  | .streamTrackUnitsResponse request_id su from_ms to_ms units =>
      if from_ms ≤ I64_MAX ∧ to_ms ≤ I64_MAX then
        (build_stream_track_units_response request_id su.stream_name
          su.track_type su.track_name (from_ms : Int) (to_ms : Int)
          units).map .ok
      else
        some (.error ("Unable to serialize from_ms (" ++
          debug_try_from_i64 from_ms ++ ")/to_ms (" ++
          debug_try_from_i64 to_ms ++ ") to AVRO Long field."))
  | .servicesFFprobeRequest request_id topic url attributes =>
      some (.ok (build_services_ffprobe_request request_id topic url
        attributes))
  | .servicesFFprobeResponse request_id streams =>
      some (.ok (build_services_ffprobe_response request_id streams))
  | .parsingError msg =>
      some (.error ("Message ParsingError(\x22" ++ msg ++
        "\x22) can not be serialized"))

/-- The round trip of spec §8: `Message::from` over `read_protocol_message`
of `Message::dump`.  The byte-level envelope step between `dump` and `from`
is exactly inverted by the external binary codec on schema-valid values
(out of scope per spec §1/§6), so the composition factors through the
`(schema_name, payload record)` pair; `none` models an encode-side panic,
an encode-side `Err`, or a decode-side panic. -/
def round_trip (m : Message) : Option Message :=
  match m.dump with
  | some (.ok p) => Message.from p.1 p.2
  | _ => none

/-! ### Valid instances

Spec §8 quantifies the round-trip law over "valid" instances: fields hold
values representable by their Rust declarations (identities are the full
16-byte buffers, `ElementType` values fit `i16`, `saved_ms` fits `u64`,
`from_ms`/`to_ms` fit the `i64` wire field) and no enum field holds the
`Unrecognized` fallback, which the wire format cannot represent (spec §9). -/

/-- `ElementType = i16` representability. -/
def i16_range (e : Int) : Prop := -(2 ^ 15) ≤ e ∧ e < 2 ^ 15

instance (e : Int) : Decidable (i16_range e) :=
  inferInstanceAs (Decidable (_ ∧ _))

/-- A valid identity quadruple: full-length buffers, encodable track kind. -/
def Unit.valid (u : Unit) : Prop :=
  u.stream_name.length = STREAM_NAME_MAX_LENGTH ∧
  u.track_name.length = TRACK_NAME_MAX_LENGTH ∧
  u.track_type ≠ .notImplemented

instance (u : Unit) : Decidable u.valid :=
  inferInstanceAs (Decidable (_ ∧ _ ∧ _))

/-- A valid track listing entry. -/
def TrackInfo.valid (t : TrackInfo) : Prop :=
  t.track_name.length = TRACK_NAME_MAX_LENGTH ∧ t.track_type ≠ .notImplemented

instance (t : TrackInfo) : Decidable t.valid :=
  inferInstanceAs (Decidable (_ ∧ _))

/-- A valid notification kind (the fallback cannot be encoded). -/
def NotifyType.valid : NotifyType → Prop
  | .ready element => i16_range element
  | .new => True
  | .notImplemented => False

instance (nt : NotifyType) : Decidable nt.valid :=
  match nt with
  | .ready element => inferInstanceAs (Decidable (i16_range element))
  | .new => inferInstanceAs (Decidable True)
  | .notImplemented => inferInstanceAs (Decidable False)

/-- A valid (wire-representable) message instance. -/
def Message.valid : Message → Prop
  | .streamTracksResponse _ stream_name tracks =>
      stream_name.length = STREAM_NAME_MAX_LENGTH ∧ ∀ t ∈ tracks, t.valid
  | .streamTracksRequest _ _ stream_name =>
      stream_name.length = STREAM_NAME_MAX_LENGTH
  | .unitElementMessage su element _ _ _ => su.valid ∧ i16_range element
  | .notifyMessage su saved_ms notify_type =>
      su.valid ∧ saved_ms < 2 ^ 64 ∧ notify_type.valid
  | .streamTrackUnitElementsRequest _ _ su max_element =>
      su.valid ∧ i16_range max_element
  | .streamTrackUnitElementsResponse _ su _ => su.valid
  | .streamTrackUnitsRequest _ _ su from_ms to_ms =>
      su.valid ∧ from_ms ≤ I64_MAX ∧ to_ms ≤ I64_MAX
  | .streamTrackUnitsResponse _ su from_ms to_ms _ =>
      su.valid ∧ from_ms ≤ I64_MAX ∧ to_ms ≤ I64_MAX
  | .pingRequestResponse _ _ _ => True
  | .servicesFFprobeRequest _ _ _ _ => True
  | .servicesFFprobeResponse _ _ => True
  | .parsingError _ => False

instance (m : Message) : Decidable m.valid :=
  match m with
  | .streamTracksResponse _ sn tracks =>
      inferInstanceAs (Decidable (sn.length = _ ∧ ∀ t ∈ tracks, t.valid))
  | .streamTracksRequest _ _ sn =>
      inferInstanceAs (Decidable (sn.length = _))
  | .unitElementMessage su element _ _ _ =>
      inferInstanceAs (Decidable (su.valid ∧ i16_range element))
  | .notifyMessage su saved_ms nt =>
      inferInstanceAs (Decidable (su.valid ∧ saved_ms < _ ∧ nt.valid))
  | .streamTrackUnitElementsRequest _ _ su me =>
      inferInstanceAs (Decidable (su.valid ∧ i16_range me))
  | .streamTrackUnitElementsResponse _ su _ =>
      inferInstanceAs (Decidable su.valid)
  | .streamTrackUnitsRequest _ _ su f t =>
      inferInstanceAs (Decidable (su.valid ∧ f ≤ _ ∧ t ≤ _))
  | .streamTrackUnitsResponse _ su f t _ =>
      inferInstanceAs (Decidable (su.valid ∧ f ≤ _ ∧ t ≤ _))
  | .pingRequestResponse _ _ _ => inferInstanceAs (Decidable True)
  | .servicesFFprobeRequest _ _ _ _ => inferInstanceAs (Decidable True)
  | .servicesFFprobeResponse _ _ => inferInstanceAs (Decidable True)
  | .parsingError _ => inferInstanceAs (Decidable False)

/-- The unit-index range messages come back from a round trip with the
stream unit's sequence number reset to `0`; every other message kind is
untouched. -/
def Message.zero_unit_seq : Message → Message
  | .streamTrackUnitsRequest request_id topic su from_ms to_ms =>
      .streamTrackUnitsRequest request_id topic { su with unit := 0 }
        from_ms to_ms
  | .streamTrackUnitsResponse request_id su from_ms to_ms units =>
      .streamTrackUnitsResponse request_id { su with unit := 0 }
        from_ms to_ms units
  | m => m

/-! ### The probe-service response kind and its conversions

From `src/protocol/objects/services/ffprobe.rs` (the variant the spec's
probe-response enumeration describes; the three-variant copy in
`src/message_builder/services/ffprobe.rs` lacks `Error` but treats the
fallback identically in both directions). -/

/-- `ServicesFFProbeResponseType` from
`src/protocol/objects/services/ffprobe.rs` lines 9-16. -/
inductive ServicesFFProbeResponseType : Type where
  | accepted
  | complete
  | error
  | notImplemented
  deriving DecidableEq, Repr

/-- `get_services_ffprobe_response_type_avro` from
`src/protocol/objects/services/ffprobe.rs` lines 18-25: encoding the
`NotImplemented` fallback panics (`none`). -/
def get_services_ffprobe_response_type_avro
    (response_type : ServicesFFProbeResponseType) : Option AvroValue :=
  match response_type with
  | .accepted => some (.enum 0 "ACCEPTED")
  | .complete => some (.enum 1 "COMPLETE")
  | .error => some (.enum 2 "ERROR")
  | .notImplemented => none

/-- `get_services_ffprobe_response_type_enum` from
`src/protocol/objects/services/ffprobe.rs` lines 28-35: any unknown literal
decodes to the `NotImplemented` fallback. -/
def get_services_ffprobe_response_type_enum (response_type : String) :
    ServicesFFProbeResponseType :=
  if response_type = "ACCEPTED" then .accepted
  else if response_type = "COMPLETE" then .complete
  else if response_type = "ERROR" then .error
  else .notImplemented

/-! ### The typed ping object of the host-binding layer

From `src/objects/services/ping.rs`. -/

/-- `PingRequestResponse` from `src/objects/services/ping.rs` lines 14-23
(its `PingRequestResponseType` has the same two variants as
`src/protocol.rs`, embedded by the shared inductive above). -/
structure PingRequestResponse : Type where
  request_id : Int
  topic : String
  mtype : PingRequestResponseType
  deriving DecidableEq, Repr

/-- `PingRequestResponse::load` from `src/objects/services/ping.rs` lines
52-84, over a `ProtocolMessage { schema, object }`: `None` on schema or
shape mismatch; an enum literal other than `REQUEST` becomes `Response`. -/
def PingRequestResponse.load (schema : String) (object : AvroValue) :
    Option PingRequestResponse :=
  if schema ≠ PING_REQUEST_RESPONSE_SCHEMA then none
  else
    match object with
    | .record [(_, .long request_id), (_, .string topic),
        (_, .enum _index ping_m_type)] =>
        some { request_id := request_id, topic := topic,
               mtype := if ping_m_type = "REQUEST" then .request
                        else .response }
    | _ => none

/-! ### The envelope decoder

`read_protocol_message` from `src/message_builder/mod.rs` lines 140-181
(verbatim copies in `src/avro.rs` lines 170-211 and
`src/message_builder.rs` lines 341-382).  The external pieces are
parameterised:

* the schema catalog is the list `dir` of canonical names held by the
  builder's directory (lookup is exact string match);
* the external binary decoder `from_avro_datum(schema, bytes)` is the
  abstract function `d`, keyed by the catalog name of the schema it is
  given, returning `none` exactly when the Rust call returns `Err`;
* `str::from_utf8` is modelled by the executable UTF-8 decoder below.

The initial `self.get_schema(MESSAGE_ENVELOPE_SCHEMA).unwrap()` panics if
the envelope schema is missing from the directory, modelled as the outer
`none`; every constructed catalog contains it. -/

/-- RFC 3629 UTF-8 decoding of a byte list (the model of
`str::from_utf8`): rejects stray/missing continuation bytes, overlong
encodings, surrogates and code points above `U+10FFFF`. -/
def utf8_decode : List Nat → Option (List Char)
  | [] => some []
  | b :: bs =>
    if b < 128 then
      (utf8_decode bs).map fun cs => Char.ofNat b :: cs
    else if 194 ≤ b ∧ b ≤ 223 then
      match bs with
      | c :: bs2 =>
          if 128 ≤ c ∧ c ≤ 191 then
            (utf8_decode bs2).map fun cs =>
              Char.ofNat ((b - 192) * 64 + (c - 128)) :: cs
          else none
      | [] => none
    else if 224 ≤ b ∧ b ≤ 239 then
      match bs with
      | c :: d :: bs3 =>
          if (if b = 224 then 160 ≤ c ∧ c ≤ 191
              else if b = 237 then 128 ≤ c ∧ c ≤ 159
              else 128 ≤ c ∧ c ≤ 191) ∧ (128 ≤ d ∧ d ≤ 191) then
            (utf8_decode bs3).map fun cs =>
              Char.ofNat ((b - 224) * 4096 + (c - 128) * 64 + (d - 128)) :: cs
          else none
      | _ => none
    else if 240 ≤ b ∧ b ≤ 244 then
      match bs with
      | c :: d :: e :: bs4 =>
          if (if b = 240 then 144 ≤ c ∧ c ≤ 191
              else if b = 244 then 128 ≤ c ∧ c ≤ 143
              else 128 ≤ c ∧ c ≤ 191) ∧ (128 ≤ d ∧ d ≤ 191) ∧
              (128 ≤ e ∧ e ≤ 191) then
            (utf8_decode bs4).map fun cs =>
              Char.ofNat ((b - 240) * 262144 + (c - 128) * 4096 +
                (d - 128) * 64 + (e - 128)) :: cs
          else none
      | _ => none
    else none

/-- `str::from_utf8` model: the decoded `String`, or `none` for invalid
UTF-8. -/
def utf8_bytes_to_string (bytes : List Nat) : Option String :=
  (utf8_decode bytes).map fun cs => String.mk cs

/-- `read_protocol_message` from `src/message_builder/mod.rs` lines 140-181,
parameterised by the catalog's name set `dir` and the abstract datum
decoder `d` (see section comment). -/
def read_protocol_message (dir : List String)
    (d : String → List Nat → Option AvroValue) («from» : List Nat) :
    Option (Except String (String × AvroValue)) :=
  if MESSAGE_ENVELOPE_SCHEMA ∈ dir then
    some (match d MESSAGE_ENVELOPE_SCHEMA «from» with
      | some envelope =>
        match envelope with
        | .record fields =>
          match fields with
          | [(s_field_name, .bytes schema), (p_field_name, .bytes payload)] =>
            if s_field_name = "schema" ∧ p_field_name = "payload" then
              match utf8_bytes_to_string schema with
              | some schema_name =>
                if schema_name ∈ dir then
                  match d schema_name payload with
                  | some inner => .ok (schema_name, inner)
                  | none =>
                      .error "Failed to parse inner AVRO serialized record"
                else
                  .error ("No valid schema found in schema catalog for the schema (" ++
                    schema_name ++ ") in serialized record")
              | none =>
                  .error "Failed to parse schema name, not a valid UTF-8"
            else .error "No outer AVRO record (MessageEnvelope) matched"
          | _ => .error "No outer AVRO record (MessageEnvelope) matched"
        | _ => .error "Failed to parse/match outer AVRO Record"
      | none => .error "Failed to deserialize the outer message")
  else none

/-- The two-field `(schema, payload)` byte-string envelope shape required by
`read_protocol_message`'s slice pattern and guard (used to state the
malformed-envelope case). -/
def envelope_shape (fields : List (String × AvroValue)) :
    Option (List Nat × List Nat) :=
  match fields with
  | [(s_field_name, .bytes schema), (p_field_name, .bytes payload)] =>
      if s_field_name = "schema" ∧ p_field_name = "payload" then
        some (schema, payload)
      else none
  | _ => none

/-! ### Helper lemmas -/

theorem fill_byte_array_of_le {n : Nat} {l : List Nat} (h : l.length ≤ n) :
    fill_byte_array (List.replicate n 0) l =
      some (l ++ List.replicate (n - l.length) 0) := by
  unfold fill_byte_array
  simp only [List.length_replicate]
  rw [min_eq_right h, if_pos rfl, List.take_length, List.drop_replicate]

theorem fill_byte_array_of_length_eq {n : Nat} {l : List Nat}
    (h : l.length = n) : fill_byte_array (List.replicate n 0) l = some l := by
  rw [fill_byte_array_of_le (le_of_eq h), h]
  simp

theorem fill_byte_array_panics {n : Nat} {l : List Nat} (h : n < l.length) :
    fill_byte_array (List.replicate n 0) l = none := by
  unfold fill_byte_array
  simp only [List.length_replicate]
  rw [min_eq_left (le_of_lt h), if_neg (by omega)]

theorem Unit.new_of_lengths {sn tn : List Nat} {lit : String} {u : Int}
    (hs : sn.length = STREAM_NAME_MAX_LENGTH)
    (ht : tn.length = TRACK_NAME_MAX_LENGTH) :
    Unit.new sn tn lit u =
      some ⟨sn, tn, track_type_literal_to_track_type lit, u⟩ := by
  unfold Unit.new
  rw [fill_byte_array_of_length_eq hs, fill_byte_array_of_length_eq ht]

theorem get_track_type_enum_literal {tt : TrackType}
    (h : tt ≠ .notImplemented) :
    ∃ i s, get_track_type_enum tt = some (.enum i s) ∧
      track_type_literal_to_track_type s = tt := by
  cases tt with
  | video => exact ⟨0, "VIDEO", rfl, by simp [track_type_literal_to_track_type]⟩
  | meta => exact ⟨1, "META", rfl, by simp [track_type_literal_to_track_type]⟩
  | notImplemented => exact absurd rfl h

theorem u64_cast_round_trip {n : Nat} (h : n < 2 ^ 64) :
    i64_as_u64 (u64_as_i64 n) = n := by
  unfold i64_as_u64 u64_as_i64
  split <;> omega

theorem as_i16_wrap_id {e : Int} (h : i16_range e) : as_i16_wrap e = e := by
  obtain ⟨h1, h2⟩ := h
  unfold as_i16_wrap
  omega

theorem u128_cast_round_trip {f : Nat} (h : f ≤ I64_MAX) :
    i64_as_u128 (f : Int) = f := by
  unfold I64_MAX at h
  unfold i64_as_u128
  rw [Int.emod_eq_of_lt (Int.natCast_nonneg f)
    (by calc (f : Int) ≤ 2 ^ 63 - 1 := by omega
      _ < 2 ^ 128 := by norm_num)]
  exact Int.toNat_natCast f

theorem attributes_to_strings_round_trip (a : List (String × String)) :
    attributes_to_strings (a.map fun kv => (kv.1, .string kv.2)) = a := by
  unfold attributes_to_strings
  induction a with
  | nil => rfl
  | cons x xs ih =>
      simp only [List.map_cons, List.cons.injEq]
      exact ⟨by simp [value_to_string], ih⟩

theorem map_all_of_forall_some {α β : Type} {f : α → Option β} {g : α → β}
    {l : List α} (h : ∀ x ∈ l, f x = some (g x)) :
    map_all f l = some (l.map g) := by
  induction l with
  | nil => rfl
  | cons x xs ih =>
      have hx := h x (List.mem_cons_self x xs)
      rw [List.map_cons, map_all, hx, ih fun y hy => h y (List.mem_cons_of_mem x hy)]
      rfl

theorem map_all_of_mem_none {α β : Type} {f : α → Option β} {l : List α}
    {x : α} (hx : x ∈ l) (hfx : f x = none) : map_all f l = none := by
  induction l with
  | nil => cases hx
  | cons y ys ih =>
      rw [map_all]
      rcases List.mem_cons.mp hx with h | h
      · subst h
        rw [hfx]
      · cases hfy : f y with
        | none => rfl
        | some v => rw [ih h]; rfl

theorem filterMap_id_map_some {α : Type} (l : List α) :
    (l.map some).filterMap id = l := by
  induction l with
  | nil => rfl
  | cons x xs ih => simp [List.filterMap_cons, ih]

theorem length_filterMap_lt_of_mem_none {α β : Type} {f : α → Option β}
    {l : List α} {x : α} (hx : x ∈ l) (hfx : f x = none) :
    ((l.map f).filterMap id).length < l.length := by
  induction l with
  | nil => cases hx
  | cons y ys ih =>
      rw [List.map_cons, List.filterMap_cons]
      rcases List.mem_cons.mp hx with h | h
      · subst h
        rw [hfx]
        simp only [List.length_cons]
        calc ((ys.map f).filterMap id).length
            ≤ (ys.map f).length := List.length_filterMap_le _ _
          _ = ys.length := by rw [List.length_map]
          _ < ys.length + 1 := Nat.lt_succ_self _
      · cases hfy : f y with
        | none => exact Nat.lt_trans (ih h) (Nat.lt_succ_self _)
        | some v => simpa using Nat.succ_lt_succ (ih h)

/-! ### Round-trip lemmas, one per registered message type -/

theorem round_trip_unit_element_message {sn tn : List Nat} {tt : TrackType}
    {u e : Int} {v : List Nat} {a : List (String × String)} {l : Bool}
    (hs : sn.length = STREAM_NAME_MAX_LENGTH)
    (ht : tn.length = TRACK_NAME_MAX_LENGTH)
    (htt : tt ≠ .notImplemented) (he : i16_range e) :
    round_trip (.unitElementMessage ⟨sn, tn, tt, u⟩ e v a l) =
      some (.unitElementMessage ⟨sn, tn, tt, u⟩ e v a l) := by
  obtain ⟨i, s, henum, hlit⟩ := get_track_type_enum_literal htt
  have hdump : (Message.unitElementMessage ⟨sn, tn, tt, u⟩ e v a l).dump =
      some (.ok (UNIT_ELEMENT_MESSAGE_SCHEMA,
        .record [("stream_unit",
            .record [("stream_name", .bytes sn), ("track_name", .bytes tn),
                     ("track_type", .enum i s), ("unit", .long u)]),
          ("element", .long e), ("value", .bytes v),
          ("attributes", .map (a.map fun kv => (kv.1, .string kv.2))),
          ("last", .boolean l)])) := by
    simp [Message.dump, build_unit_element_message, get_stream_unit,
      gen_hash_map, henum]
  unfold round_trip
  rw [hdump]
  simp only [Message.from, if_pos rfl, load_unit_element_message]
  rw [Unit.new_of_lengths hs ht, hlit]
  simp [as_i16_wrap_id he, attributes_to_strings_round_trip]

theorem map_all_map {α β γ : Type} {f : β → Option γ} {e : α → β}
    {g : α → γ} {l : List α} (h : ∀ x ∈ l, f (e x) = some (g x)) :
    map_all f (l.map e) = some (l.map g) := by
  induction l with
  | nil => rfl
  | cons x xs ih =>
      rw [List.map_cons, List.map_cons, map_all,
        h x (List.mem_cons_self x xs),
        ih fun y hy => h y (List.mem_cons_of_mem x hy)]
      rfl

theorem to_payload_round_trip (p : Payload) :
    to_payload (payload_to_avro p) = some p := by
  cases p with
  | mk data attributes =>
      simp [to_payload, payload_to_avro, attributes_to_strings_round_trip]

theorem round_trip_notify_message {sn tn : List Nat} {tt : TrackType}
    {u : Int} {saved_ms : Nat} {nt : NotifyType}
    (hs : sn.length = STREAM_NAME_MAX_LENGTH)
    (ht : tn.length = TRACK_NAME_MAX_LENGTH)
    (htt : tt ≠ .notImplemented) (hms : saved_ms < 2 ^ 64) (hnt : nt.valid) :
    round_trip (.notifyMessage ⟨sn, tn, tt, u⟩ saved_ms nt) =
      some (.notifyMessage ⟨sn, tn, tt, u⟩ saved_ms nt) := by
  obtain ⟨i, s, henum, hlit⟩ := get_track_type_enum_literal htt
  cases nt with
  | ready element =>
      have hdump : (Message.notifyMessage ⟨sn, tn, tt, u⟩ saved_ms
          (.ready element)).dump =
          some (.ok (NOTIFY_MESSAGE_SCHEMA,
            .record [("stream_unit",
                .record [("stream_name", .bytes sn), ("track_name", .bytes tn),
                         ("track_type", .enum i s), ("unit", .long u)]),
              ("last_element", .int element),
              ("saved_ms", .long (u64_as_i64 saved_ms)),
              ("notify_type", .enum 0 "READY")])) := by
        simp [Message.dump, build_notify_message, get_stream_unit, henum]
      unfold round_trip
      rw [hdump]
      simp only [Message.from, NOTIFY_MESSAGE_SCHEMA,
        UNIT_ELEMENT_MESSAGE_SCHEMA, String.reduceEq, if_neg, if_pos,
        reduceIte, load_notify_message]
      rw [Unit.new_of_lengths hs ht, hlit]
      simp [u64_cast_round_trip hms, as_i16_wrap_id hnt]
  | new =>
      have hdump : (Message.notifyMessage ⟨sn, tn, tt, u⟩ saved_ms
          NotifyType.new).dump =
          some (.ok (NOTIFY_MESSAGE_SCHEMA,
            .record [("stream_unit",
                .record [("stream_name", .bytes sn), ("track_name", .bytes tn),
                         ("track_type", .enum i s), ("unit", .long u)]),
              ("last_element", .int (-1)),
              ("saved_ms", .long (u64_as_i64 saved_ms)),
              ("notify_type", .enum 1 "NEW")])) := by
        simp [Message.dump, build_notify_message, get_stream_unit, henum]
      unfold round_trip
      rw [hdump]
      simp only [Message.from, NOTIFY_MESSAGE_SCHEMA,
        UNIT_ELEMENT_MESSAGE_SCHEMA, String.reduceEq, if_neg, if_pos,
        reduceIte, load_notify_message]
      rw [Unit.new_of_lengths hs ht, hlit]
      simp [u64_cast_round_trip hms]
  | notImplemented => exact absurd hnt (by simp [NotifyType.valid])

theorem round_trip_stream_tracks_request {request_id : Int} {topic : String}
    {sn : List Nat} (hs : sn.length = STREAM_NAME_MAX_LENGTH) :
    round_trip (.streamTracksRequest request_id topic sn) =
      some (.streamTracksRequest request_id topic sn) := by
  unfold round_trip
  have hdump : (Message.streamTracksRequest request_id topic sn).dump =
      some (.ok (STREAM_TRACKS_REQUEST_SCHEMA,
        .record [("request_id", .long request_id), ("topic", .string topic),
                 ("stream_name", .bytes sn)])) := by
    simp [Message.dump, build_stream_tracks_request]
  rw [hdump]
  simp only [Message.from, STREAM_TRACKS_REQUEST_SCHEMA,
    UNIT_ELEMENT_MESSAGE_SCHEMA, NOTIFY_MESSAGE_SCHEMA, String.reduceEq,
    reduceIte, load_stream_tracks_request]
  rw [fill_byte_array_of_length_eq hs]
  rfl

theorem tracks_round_trip {tracks : List TrackInfo}
    (h : ∀ t ∈ tracks, t.valid) :
    ∃ trackVals,
      map_all (fun t => (get_track_type_enum t.2).map fun tt =>
          AvroValue.record [("name", .bytes t.1), ("type", tt)])
        (tracks.map fun x => (x.track_name, x.track_type)) =
        some trackVals ∧
      map_all track_info_of_value trackVals = some (tracks.map some) := by
  induction tracks with
  | nil => exact ⟨[], rfl, rfl⟩
  | cons t ts ih =>
      obtain ⟨trackVals, henc, hdec⟩ :=
        ih fun x hx => h x (List.mem_cons_of_mem t hx)
      obtain ⟨hlen, hne⟩ := h t (List.mem_cons_self t ts)
      obtain ⟨i, s, henum, hlit⟩ := get_track_type_enum_literal hne
      refine ⟨.record [("name", .bytes t.track_name), ("type", .enum i s)] ::
        trackVals, ?_, ?_⟩
      · rw [List.map_cons, map_all, henum, henc]
        rfl
      · rw [List.map_cons, map_all]
        have : track_info_of_value
            (.record [("name", .bytes t.track_name), ("type", .enum i s)]) =
            some (some t) := by
          simp only [track_info_of_value]
          rw [fill_byte_array_of_length_eq hlen, hlit]
          rfl
        rw [this, hdec]
        rfl

theorem round_trip_stream_tracks_response {request_id : Int} {sn : List Nat}
    {tracks : List TrackInfo} (hs : sn.length = STREAM_NAME_MAX_LENGTH)
    (h : ∀ t ∈ tracks, t.valid) :
    round_trip (.streamTracksResponse request_id sn tracks) =
      some (.streamTracksResponse request_id sn tracks) := by
  obtain ⟨trackVals, henc, hdec⟩ := tracks_round_trip h
  have hdump : (Message.streamTracksResponse request_id sn tracks).dump =
      some (.ok (STREAM_TRACKS_RESPONSE_SCHEMA,
        .record [("request_id", .long request_id), ("stream_name", .bytes sn),
                 ("tracks", .array trackVals)])) := by
    simp only [Message.dump, build_stream_tracks_response]
    rw [henc]
    rfl
  unfold round_trip
  rw [hdump]
  simp only [Message.from, STREAM_TRACKS_RESPONSE_SCHEMA,
    UNIT_ELEMENT_MESSAGE_SCHEMA, NOTIFY_MESSAGE_SCHEMA,
    STREAM_TRACKS_REQUEST_SCHEMA, String.reduceEq, reduceIte,
    load_stream_tracks_response]
  rw [fill_byte_array_of_length_eq hs]
  simp only [Option.some_bind]
  rw [hdec]
  simp [filterMap_id_map_some]

theorem round_trip_stream_track_unit_elements_request {sn tn : List Nat}
    {tt : TrackType} {request_id u me : Int} {topic : String}
    (hs : sn.length = STREAM_NAME_MAX_LENGTH)
    (ht : tn.length = TRACK_NAME_MAX_LENGTH)
    (htt : tt ≠ .notImplemented) (hme : i16_range me) :
    round_trip (.streamTrackUnitElementsRequest request_id topic
        ⟨sn, tn, tt, u⟩ me) =
      some (.streamTrackUnitElementsRequest request_id topic
        ⟨sn, tn, tt, u⟩ me) := by
  obtain ⟨i, s, henum, hlit⟩ := get_track_type_enum_literal htt
  have hdump : (Message.streamTrackUnitElementsRequest request_id topic
      ⟨sn, tn, tt, u⟩ me).dump =
      some (.ok (STREAM_TRACK_UNIT_ELEMENTS_REQUEST_SCHEMA,
        .record [("request_id", .long request_id), ("topic", .string topic),
          ("stream_unit",
            .record [("stream_name", .bytes sn), ("track_name", .bytes tn),
                     ("track_type", .enum i s), ("unit", .long u)]),
          ("max_element", .long me)])) := by
    simp [Message.dump, build_stream_track_unit_elements_request,
      get_stream_unit, henum]
  unfold round_trip
  rw [hdump]
  simp only [Message.from, STREAM_TRACK_UNIT_ELEMENTS_REQUEST_SCHEMA,
    UNIT_ELEMENT_MESSAGE_SCHEMA, NOTIFY_MESSAGE_SCHEMA,
    STREAM_TRACKS_REQUEST_SCHEMA, STREAM_TRACKS_RESPONSE_SCHEMA,
    String.reduceEq, reduceIte, load_stream_track_unit_elements_request]
  rw [Unit.new_of_lengths hs ht, hlit]
  simp [as_i16_wrap_id hme]

theorem round_trip_stream_track_unit_elements_response {sn tn : List Nat}
    {tt : TrackType} {request_id u : Int} {values : List Payload}
    (hs : sn.length = STREAM_NAME_MAX_LENGTH)
    (ht : tn.length = TRACK_NAME_MAX_LENGTH)
    (htt : tt ≠ .notImplemented) :
    round_trip (.streamTrackUnitElementsResponse request_id
        ⟨sn, tn, tt, u⟩ values) =
      some (.streamTrackUnitElementsResponse request_id
        ⟨sn, tn, tt, u⟩ values) := by
  obtain ⟨i, s, henum, hlit⟩ := get_track_type_enum_literal htt
  have hdump : (Message.streamTrackUnitElementsResponse request_id
      ⟨sn, tn, tt, u⟩ values).dump =
      some (.ok (STREAM_TRACK_UNIT_ELEMENTS_RESPONSE_SCHEMA,
        .record [("request_id", .long request_id),
          ("stream_unit",
            .record [("stream_name", .bytes sn), ("track_name", .bytes tn),
                     ("track_type", .enum i s), ("unit", .long u)]),
          ("values", .array (values.map payload_to_avro))])) := by
    simp [Message.dump, build_stream_track_unit_elements_response,
      get_stream_unit, henum]
  unfold round_trip
  rw [hdump]
  simp only [Message.from, STREAM_TRACK_UNIT_ELEMENTS_RESPONSE_SCHEMA,
    UNIT_ELEMENT_MESSAGE_SCHEMA, NOTIFY_MESSAGE_SCHEMA,
    STREAM_TRACKS_REQUEST_SCHEMA, STREAM_TRACKS_RESPONSE_SCHEMA,
    STREAM_TRACK_UNIT_ELEMENTS_REQUEST_SCHEMA, String.reduceEq, reduceIte,
    load_stream_track_unit_elements_response]
  have hvals : (values.map payload_to_avro).map to_payload =
      values.map some := by
    rw [List.map_map]
    exact List.map_congr_left fun p _ => to_payload_round_trip p
  rw [hvals, filterMap_id_map_some]
  simp only [List.length_map, lt_self_iff_false, if_false]
  rw [Unit.new_of_lengths hs ht, hlit]
  rfl

theorem round_trip_stream_track_units_request {sn tn : List Nat}
    {tt : TrackType} {request_id u : Int} {topic : String} {f t : Nat}
    (hs : sn.length = STREAM_NAME_MAX_LENGTH)
    (ht : tn.length = TRACK_NAME_MAX_LENGTH)
    (htt : tt ≠ .notImplemented) (hf : f ≤ I64_MAX) (hto : t ≤ I64_MAX) :
    round_trip (.streamTrackUnitsRequest request_id topic
        ⟨sn, tn, tt, u⟩ f t) =
      some (.streamTrackUnitsRequest request_id topic
        ⟨sn, tn, tt, 0⟩ f t) := by
  obtain ⟨i, s, henum, hlit⟩ := get_track_type_enum_literal htt
  have hdump : (Message.streamTrackUnitsRequest request_id topic
      ⟨sn, tn, tt, u⟩ f t).dump =
      some (.ok (STREAM_TRACK_UNITS_REQUEST_SCHEMA,
        .record [("request_id", .long request_id), ("topic", .string topic),
          ("stream_unit",
            .record [("stream_name", .bytes sn), ("track_name", .bytes tn),
                     ("track_type", .enum i s), ("unit", .long 0)]),
          ("from_ms", .long (f : Int)), ("to_ms", .long (t : Int))])) := by
    simp only [Message.dump]
    rw [if_pos ⟨hf, hto⟩]
    simp [build_stream_track_units_request, get_stream_unit, henum]
  unfold round_trip
  rw [hdump]
  simp only [Message.from, STREAM_TRACK_UNITS_REQUEST_SCHEMA,
    UNIT_ELEMENT_MESSAGE_SCHEMA, NOTIFY_MESSAGE_SCHEMA,
    STREAM_TRACKS_REQUEST_SCHEMA, STREAM_TRACKS_RESPONSE_SCHEMA,
    STREAM_TRACK_UNIT_ELEMENTS_REQUEST_SCHEMA,
    STREAM_TRACK_UNIT_ELEMENTS_RESPONSE_SCHEMA, String.reduceEq, reduceIte,
    load_stream_track_units_request]
  rw [Unit.new_of_lengths hs ht, hlit]
  simp [u128_cast_round_trip hf, u128_cast_round_trip hto]

theorem round_trip_stream_track_units_response {sn tn : List Nat}
    {tt : TrackType} {request_id u : Int} {f t : Nat} {units : List Int}
    (hs : sn.length = STREAM_NAME_MAX_LENGTH)
    (ht : tn.length = TRACK_NAME_MAX_LENGTH)
    (htt : tt ≠ .notImplemented) (hf : f ≤ I64_MAX) (hto : t ≤ I64_MAX) :
    round_trip (.streamTrackUnitsResponse request_id
        ⟨sn, tn, tt, u⟩ f t units) =
      some (.streamTrackUnitsResponse request_id
        ⟨sn, tn, tt, 0⟩ f t units) := by
  obtain ⟨i, s, henum, hlit⟩ := get_track_type_enum_literal htt
  have hdump : (Message.streamTrackUnitsResponse request_id
      ⟨sn, tn, tt, u⟩ f t units).dump =
      some (.ok (STREAM_TRACK_UNITS_RESPONSE_SCHEMA,
        .record [("request_id", .long request_id),
          ("stream_unit",
            .record [("stream_name", .bytes sn), ("track_name", .bytes tn),
                     ("track_type", .enum i s), ("unit", .long 0)]),
          ("from_ms", .long (f : Int)), ("to_ms", .long (t : Int)),
          ("units", .array (units.map fun x => .long x))])) := by
    simp only [Message.dump]
    rw [if_pos ⟨hf, hto⟩]
    simp [build_stream_track_units_response, get_stream_unit, henum]
  unfold round_trip
  rw [hdump]
  simp only [Message.from, STREAM_TRACK_UNITS_RESPONSE_SCHEMA,
    UNIT_ELEMENT_MESSAGE_SCHEMA, NOTIFY_MESSAGE_SCHEMA,
    STREAM_TRACKS_REQUEST_SCHEMA, STREAM_TRACKS_RESPONSE_SCHEMA,
    STREAM_TRACK_UNIT_ELEMENTS_REQUEST_SCHEMA,
    STREAM_TRACK_UNIT_ELEMENTS_RESPONSE_SCHEMA,
    STREAM_TRACK_UNITS_REQUEST_SCHEMA, String.reduceEq, reduceIte,
    load_stream_track_units_response]
  have hunits : (units.map fun x => AvroValue.long x).map unit_of_value =
      units.map some := by
    rw [List.map_map]
    exact List.map_congr_left fun x _ => rfl
  rw [hunits, filterMap_id_map_some]
  simp only [List.length_map, lt_self_iff_false, if_false]
  rw [Unit.new_of_lengths hs ht, hlit]
  simp [u128_cast_round_trip hf, u128_cast_round_trip hto]

theorem round_trip_ping_request_response {request_id : Int} {topic : String}
    {mtype : PingRequestResponseType} :
    round_trip (.pingRequestResponse request_id topic mtype) =
      some (.pingRequestResponse request_id topic mtype) := by
  cases mtype <;>
    · unfold round_trip
      simp [Message.dump, build_ping_request_response, Message.from,
        PING_REQUEST_RESPONSE_SCHEMA, UNIT_ELEMENT_MESSAGE_SCHEMA,
        NOTIFY_MESSAGE_SCHEMA, STREAM_TRACKS_REQUEST_SCHEMA,
        STREAM_TRACKS_RESPONSE_SCHEMA,
        STREAM_TRACK_UNIT_ELEMENTS_REQUEST_SCHEMA,
        STREAM_TRACK_UNIT_ELEMENTS_RESPONSE_SCHEMA,
        STREAM_TRACK_UNITS_REQUEST_SCHEMA, STREAM_TRACK_UNITS_RESPONSE_SCHEMA,
        load_ping_request_response]

theorem round_trip_services_ffprobe_request {request_id : Int}
    {topic url : String} {attributes : List (String × String)} :
    round_trip (.servicesFFprobeRequest request_id topic url attributes) =
      some (.servicesFFprobeRequest request_id topic url attributes) := by
  unfold round_trip
  simp only [Message.dump, build_services_ffprobe_request, gen_hash_map]
  simp only [Message.from, SERVICES_FFPROBE_REQUEST_SCHEMA,
    UNIT_ELEMENT_MESSAGE_SCHEMA, NOTIFY_MESSAGE_SCHEMA,
    STREAM_TRACKS_REQUEST_SCHEMA, STREAM_TRACKS_RESPONSE_SCHEMA,
    STREAM_TRACK_UNIT_ELEMENTS_REQUEST_SCHEMA,
    STREAM_TRACK_UNIT_ELEMENTS_RESPONSE_SCHEMA,
    STREAM_TRACK_UNITS_REQUEST_SCHEMA, STREAM_TRACK_UNITS_RESPONSE_SCHEMA,
    PING_REQUEST_RESPONSE_SCHEMA, String.reduceEq, reduceIte,
    load_services_ffprobe_request]
  simp [attributes_to_strings_round_trip]

theorem round_trip_services_ffprobe_response {request_id : Int}
    {streams : List (List (String × String))} :
    round_trip (.servicesFFprobeResponse request_id streams) =
      some (.servicesFFprobeResponse request_id streams) := by
  unfold round_trip
  simp only [Message.dump, build_services_ffprobe_response]
  simp only [Message.from, SERVICES_FFPROBE_RESPONSE_SCHEMA,
    UNIT_ELEMENT_MESSAGE_SCHEMA, NOTIFY_MESSAGE_SCHEMA,
    STREAM_TRACKS_REQUEST_SCHEMA, STREAM_TRACKS_RESPONSE_SCHEMA,
    STREAM_TRACK_UNIT_ELEMENTS_REQUEST_SCHEMA,
    STREAM_TRACK_UNIT_ELEMENTS_RESPONSE_SCHEMA,
    STREAM_TRACK_UNITS_REQUEST_SCHEMA, STREAM_TRACK_UNITS_RESPONSE_SCHEMA,
    PING_REQUEST_RESPONSE_SCHEMA, SERVICES_FFPROBE_REQUEST_SCHEMA,
    String.reduceEq, reduceIte, load_services_ffprobe_response]
  have hstreams : map_all stream_attributes_of_value
      (streams.map gen_hash_map) = some (streams.map id) :=
    map_all_map fun s _ => by
      simp [stream_attributes_of_value, gen_hash_map,
        attributes_to_strings_round_trip]
  rw [hstreams]
  simp

theorem map_all_of_forall_ne_none {α β : Type} {f : α → Option β}
    {l : List α} (h : ∀ x ∈ l, f x ≠ none) :
    ∃ r, map_all f l = some r ∧ r.length = l.length := by
  induction l with
  | nil => exact ⟨[], rfl, rfl⟩
  | cons x xs ih =>
      obtain ⟨r, hr, hlen⟩ := ih fun y hy => h y (List.mem_cons_of_mem x hy)
      cases hfx : f x with
      | none => exact absurd hfx (h x (List.mem_cons_self x xs))
      | some y =>
          refine ⟨y :: r, ?_, by simp [hlen]⟩
          rw [map_all, hfx, hr]
          rfl

theorem map_all_partial_lt {α β : Type} {f : α → Option (Option β)}
    {l : List α} {x : α} (hx : x ∈ l) (hfx : f x = some none)
    (hall : ∀ y ∈ l, f y ≠ none) :
    ∃ r, map_all f l = some r ∧ (r.filterMap id).length < r.length := by
  induction l with
  | nil => cases hx
  | cons y ys ih =>
      rcases List.mem_cons.mp hx with h | h
      · subst h
        obtain ⟨r, hr, hlen⟩ := map_all_of_forall_ne_none
          fun z hz => hall z (List.mem_cons_of_mem x hz)
        refine ⟨none :: r, ?_, ?_⟩
        · rw [map_all, hfx, hr]
          rfl
        · rw [List.filterMap_cons]
          calc ((r.filterMap id).length) ≤ r.length :=
              List.length_filterMap_le _ _
            _ < (none :: r).length := by simp
      · obtain ⟨r, hr, hlt⟩ := ih h fun z hz =>
          hall z (List.mem_cons_of_mem y hz)
        cases hfy : f y with
        | none => exact absurd hfy (hall y (List.mem_cons_self y ys))
        | some oy =>
            refine ⟨oy :: r, ?_, ?_⟩
            · rw [map_all, hfy, hr]
              rfl
            · rw [List.filterMap_cons]
              cases oy with
              | none => exact Nat.lt_trans hlt (by simp)
              | some b => simpa using Nat.succ_lt_succ hlt

theorem envelope_shape_eq_some {fields : List (String × AvroValue)}
    {s p : List Nat} :
    envelope_shape fields = some (s, p) ↔
      fields = [("schema", .bytes s), ("payload", .bytes p)] := by
  constructor
  · intro h
    unfold envelope_shape at h
    split at h
    · next hcond =>
        split at h
        · next hnames =>
            obtain ⟨h1, h2⟩ := hnames
            simp only [Option.some.injEq, Prod.mk.injEq] at h
            obtain ⟨rfl, rfl⟩ := h
            rw [h1, h2]
        · cases h
    · cases h
  · rintro rfl
    simp [envelope_shape]

/-! ## Claim theorems -/

/-- C1 counterexample: the round-trip law `decode_any(encode_any(t)) ==
Some(t)` fails as stated.  A valid `StreamTrackUnitsRequest` whose stream
unit carries sequence number `1` (well-formed 16-byte identities, encodable
track kind, range bounds that fit `i64`) does not come back equal to
itself: the encoder hard-codes the sequence number `0`. -/
theorem C1_counterexample :
    round_trip (.streamTrackUnitsRequest 0 "topic"
        ⟨List.replicate 16 0, List.replicate 16 0, .video, 1⟩ 0 0) ≠
      some (.streamTrackUnitsRequest 0 "topic"
        ⟨List.replicate 16 0, List.replicate 16 0, .video, 1⟩ 0 0) := by
  decide

/-- C1 (amended): for every registered message type and every valid
instance `t` (identities are full 16-byte buffers, numeric fields fit their
wire types, no `Unrecognized` enum fallback), decoding the encoding of `t`
returns `Some` of a message structurally equal to `t` — except for
`StreamTrackUnitsRequest` and `StreamTrackUnitsResponse`, where the result
equals `t` with the stream unit's sequence number replaced by `0`. -/
theorem C1_round_trip_law (m : Message) (hv : m.valid) :
    round_trip m = some m.zero_unit_seq := by
  cases m with
  | streamTracksResponse request_id sn tracks =>
      obtain ⟨hs, htr⟩ := hv
      exact round_trip_stream_tracks_response hs htr
  | streamTracksRequest request_id topic sn =>
      exact round_trip_stream_tracks_request hv
  | unitElementMessage su e v a l =>
      obtain ⟨sn, tn, tt, u⟩ := su
      obtain ⟨⟨hs, ht, htt⟩, he⟩ := hv
      exact round_trip_unit_element_message hs ht htt he
  | notifyMessage su saved_ms nt =>
      obtain ⟨sn, tn, tt, u⟩ := su
      obtain ⟨⟨hs, ht, htt⟩, hms, hnt⟩ := hv
      exact round_trip_notify_message hs ht htt hms hnt
  | streamTrackUnitElementsRequest request_id topic su me =>
      obtain ⟨sn, tn, tt, u⟩ := su
      obtain ⟨⟨hs, ht, htt⟩, hme⟩ := hv
      exact round_trip_stream_track_unit_elements_request hs ht htt hme
  | streamTrackUnitElementsResponse request_id su values =>
      obtain ⟨sn, tn, tt, u⟩ := su
      obtain ⟨hs, ht, htt⟩ := hv
      exact round_trip_stream_track_unit_elements_response hs ht htt
  | streamTrackUnitsRequest request_id topic su f t =>
      obtain ⟨sn, tn, tt, u⟩ := su
      obtain ⟨⟨hs, ht, htt⟩, hf, hto⟩ := hv
      exact round_trip_stream_track_units_request hs ht htt hf hto
  | streamTrackUnitsResponse request_id su f t units =>
      obtain ⟨sn, tn, tt, u⟩ := su
      obtain ⟨⟨hs, ht, htt⟩, hf, hto⟩ := hv
      exact round_trip_stream_track_units_response hs ht htt hf hto
  | pingRequestResponse request_id topic mtype =>
      exact round_trip_ping_request_response
  | servicesFFprobeRequest request_id topic url attributes =>
      exact round_trip_services_ffprobe_request
  | servicesFFprobeResponse request_id streams =>
      exact round_trip_services_ffprobe_response
  | parsingError msg => exact hv.elim

/-- C1 witness: the amended round-trip law applied to a concrete valid
unit-element message. -/
theorem C1_round_trip_law_witness :
    Message.valid (.unitElementMessage
        ⟨List.replicate 16 1, List.replicate 16 2, .meta, 3⟩ 5 [0, 1, 2]
        [("key", "value")] true) ∧
    round_trip (.unitElementMessage
        ⟨List.replicate 16 1, List.replicate 16 2, .meta, 3⟩ 5 [0, 1, 2]
        [("key", "value")] true) =
      some (Message.zero_unit_seq (.unitElementMessage
        ⟨List.replicate 16 1, List.replicate 16 2, .meta, 3⟩ 5 [0, 1, 2]
        [("key", "value")] true)) :=
  ⟨by decide, C1_round_trip_law _ (by decide)⟩

/-- C2: the claimed silent-truncation law fails in the code.  Constructing a
unit from a 17-byte stream identity panics: `fill_byte_array` computes
`len = min(16, 17) = 16` but then calls
`buf[..16].clone_from_slice(from.as_slice())` with the *whole* 17-byte
source, and `clone_from_slice` panics on unequal slice lengths (modelled as
`none`).  A 1-byte identity is, as claimed, zero-extended without error. -/
theorem C2_long_identity_panics :
    Unit.new (List.replicate 17 97) (List.replicate 4 116) "VIDEO" 0 = none ∧
    fill_byte_array (List.replicate 16 0) (List.replicate 17 97) = none ∧
    Unit.new [97] [98] "VIDEO" 0 =
      some ⟨97 :: List.replicate 15 0, 98 :: List.replicate 15 0,
        .video, 0⟩ := by
  decide

/-- C9: `pack_track_name` rejects a name longer than 16 bytes with a typed
error (never truncating it), and zero-pads a name of at most 16 bytes to
exactly 16 bytes, preserving the name as the prefix. -/
theorem C9_pack_track_name_policy (name : List Nat) :
    (TRACK_NAME_MAX_LENGTH < name.length →
      pack_track_name name =
        .error "Invalid track name length. Must me less than 16 characters.") ∧
    (name.length ≤ TRACK_NAME_MAX_LENGTH →
      pack_track_name name =
        .ok (name ++ List.replicate (TRACK_NAME_MAX_LENGTH - name.length) 0)) ∧
    (∀ buf, pack_track_name name = .ok buf →
      buf.length = TRACK_NAME_MAX_LENGTH ∧ buf.take name.length = name) := by
  refine ⟨fun h => ?_, fun h => ?_, fun buf hbuf => ?_⟩
  · unfold pack_track_name
    rw [if_pos h]
  · unfold pack_track_name get_empty_track_name
    rw [if_neg (by omega), List.drop_replicate]
  · unfold pack_track_name get_empty_track_name at hbuf
    by_cases h : TRACK_NAME_MAX_LENGTH < name.length
    · rw [if_pos h] at hbuf
      cases hbuf
    · rw [if_neg h] at hbuf
      obtain rfl : buf = name ++ (List.replicate TRACK_NAME_MAX_LENGTH 0).drop
          name.length := by
        cases hbuf
        rfl
      constructor
      · rw [List.drop_replicate]
        simp only [List.length_append, List.length_replicate]
        unfold TRACK_NAME_MAX_LENGTH at *
        omega
      · rw [List.take_left]

/-- C9 witness: the policy applied to a 4-byte name (`"test"`) and to a
17-byte name. -/
theorem C9_pack_track_name_policy_witness :
    pack_track_name [116, 101, 115, 116] =
      .ok ([116, 101, 115, 116] ++ List.replicate 12 0) ∧
    pack_track_name (List.replicate 17 97) =
      .error "Invalid track name length. Must me less than 16 characters." :=
  ⟨by rw [(C9_pack_track_name_policy [116, 101, 115, 116]).2.1 (by decide)]
      rfl,
   by rw [(C9_pack_track_name_policy (List.replicate 17 97)).1 (by decide)]⟩

/-- C4 counterexample: the request/response (ping) kind has no
`Unrecognized` fallback variant.  Decoding a ping record whose enum field
carries the unknown wire literal `HEARTBEAT` yields the concrete variant
`Response` — exactly what decoding the known literal `RESPONSE` yields —
not a dedicated fallback. -/
theorem C4_counterexample :
    PingRequestResponse.load PING_REQUEST_RESPONSE_SCHEMA
        (.record [("request_id", .long 0), ("topic", .string "t"),
          ("type", .enum 7 "HEARTBEAT")]) =
      some ⟨0, "t", .response⟩ ∧
    PingRequestResponse.load PING_REQUEST_RESPONSE_SCHEMA
        (.record [("request_id", .long 0), ("topic", .string "t"),
          ("type", .enum 1 "RESPONSE")]) =
      some ⟨0, "t", .response⟩ := by
  constructor <;> rfl

/-- C4 (amended): a wire literal absent from the literal table decodes to
the `Unrecognized` (`NotImplemented`) fallback for the track kind, the
notification kind and the probe-response kind — never a failure; the ping
request/response kind, whose enum has no fallback variant, decodes any
literal other than `REQUEST` to the concrete `Response` variant instead. -/
theorem C4_unknown_literal_fallback :
    (∀ lit, lit ≠ "VIDEO" → lit ≠ "META" →
      track_type_literal_to_track_type lit = .notImplemented) ∧
    (∀ sn tn lit u, sn.length = STREAM_NAME_MAX_LENGTH →
      tn.length = TRACK_NAME_MAX_LENGTH → lit ≠ "VIDEO" → lit ≠ "META" →
      Unit.new sn tn lit u = some ⟨sn, tn, .notImplemented, u⟩) ∧
    (∀ n1 n2 n3 n4 m1 m2 m3 m4 sn tn j k ttl u le sm lit,
      sn.length = STREAM_NAME_MAX_LENGTH →
      tn.length = TRACK_NAME_MAX_LENGTH → lit ≠ "READY" → lit ≠ "NEW" →
      load_notify_message (.record [(n1, .record [(m1, .bytes sn),
          (m2, .bytes tn), (m3, .enum j ttl), (m4, .long u)]),
        (n2, .int le), (n3, .long sm), (n4, .enum k lit)]) =
        some (.notifyMessage ⟨sn, tn, track_type_literal_to_track_type ttl, u⟩
          (i64_as_u64 sm) .notImplemented)) ∧
    (∀ lit, lit ≠ "ACCEPTED" → lit ≠ "COMPLETE" → lit ≠ "ERROR" →
      get_services_ffprobe_response_type_enum lit = .notImplemented) ∧
    (∀ n1 n2 n3 rid topic i lit, lit ≠ "REQUEST" →
      PingRequestResponse.load PING_REQUEST_RESPONSE_SCHEMA
          (.record [(n1, .long rid), (n2, .string topic),
            (n3, .enum i lit)]) =
        some ⟨rid, topic, .response⟩) := by
  refine ⟨fun lit h1 h2 => ?_, fun sn tn lit u hs ht h1 h2 => ?_,
    fun n1 n2 n3 n4 m1 m2 m3 m4 sn tn j k ttl u le sm lit hs ht h1 h2 => ?_,
    fun lit h1 h2 h3 => ?_, fun n1 n2 n3 rid topic i lit h1 => ?_⟩
  · unfold track_type_literal_to_track_type
    rw [if_neg h1, if_neg h2]
  · rw [Unit.new_of_lengths hs ht]
    unfold track_type_literal_to_track_type
    rw [if_neg h1, if_neg h2]
  · simp only [load_notify_message]
    rw [Unit.new_of_lengths hs ht, if_neg h1, if_neg h2]
    rfl
  · unfold get_services_ffprobe_response_type_enum
    rw [if_neg h1, if_neg h2, if_neg h3]
  · simp only [PingRequestResponse.load, ne_eq, not_true_eq_false,
      if_false, ite_not]
    rw [if_neg h1]

/-- C4 witness: the amended fallback behaviour at the concrete unknown
literals `AUDIO` (track kind) and `PENDING` (probe-response kind). -/
theorem C4_unknown_literal_fallback_witness :
    Unit.new (List.replicate 16 0) (List.replicate 16 0) "AUDIO" 5 =
      some ⟨List.replicate 16 0, List.replicate 16 0, .notImplemented, 5⟩ ∧
    get_services_ffprobe_response_type_enum "PENDING" = .notImplemented :=
  ⟨C4_unknown_literal_fallback.2.1 _ _ "AUDIO" 5 (by decide) (by decide)
      (by decide) (by decide),
   C4_unknown_literal_fallback.2.2.2.1 "PENDING" (by decide) (by decide)
      (by decide)⟩

/-- C5 counterexample: two structural mismatches are not surfaced as typed
failures.  A non-map element inside the ffprobe response `streams` array
panics (modelled `none`), and a non-string value inside a string-keyed
attribute map is silently replaced by the empty string — here producing a
fully-populated `Payload` with substituted attribute value. -/
theorem C5_counterexample :
    load_services_ffprobe_response (.record [("request_id", .long 0),
        ("streams", .array [.long 7])]) = none ∧
    attributes_to_strings [("k", .long 1)] = [("k", "")] ∧
    to_payload (.record [("data", .bytes [0]),
        ("attributes", .map [("k", .long 1)])]) =
      some ⟨[0], [("k", "")]⟩ := by
  refine ⟨rfl, rfl, rfl⟩

/-- C5 (amended): mapping a generic value to a specific domain type is
fail-closed for field count/order/kind mismatches — `to_payload` succeeds
only on the exact two-field `(bytes, map)` shape, with output fully
determined by the input (never zero-valued or partially populated) — but a
non-string value inside a string-keyed attribute map is silently replaced
by `""` rather than failing, and a non-map element inside the ffprobe
response `streams` array panics rather than returning a typed failure. -/
theorem C5_structural_mismatch :
    (∀ v p, to_payload v = some p →
      ∃ n1 n2 data attrs, v = .record [(n1, .bytes data), (n2, .map attrs)] ∧
        p = ⟨data, attributes_to_strings attrs⟩) ∧
    (∀ attrs (k : String) (v : AvroValue), (k, v) ∈ attrs →
      value_to_string v = none → (k, "") ∈ attributes_to_strings attrs) ∧
    (∀ rid streams s n1 n2, s ∈ streams →
      stream_attributes_of_value s = none →
      load_services_ffprobe_response (.record [(n1, .long rid),
        (n2, .array streams)]) = none) := by
  refine ⟨fun v p hp => ?_, fun attrs k v hmem hv => ?_,
    fun rid streams s n1 n2 hmem hs => ?_⟩
  · unfold to_payload at hp
    split at hp
    · next n1 data n2 attrs =>
        exact ⟨n1, n2, data, attrs, rfl, (Option.some.injEq _ _).mp hp |>.symm⟩
    · cases hp
  · have : ((k, v).1, (value_to_string (k, v).2).getD "") ∈
        attributes_to_strings attrs := List.mem_map_of_mem _ hmem
    simpa [hv] using this
  · simp only [load_services_ffprobe_response]
    rw [map_all_of_mem_none hmem hs]
    rfl

/-- C5 witness: the amended statement at concrete inputs — the fail-closed
shape inversion for a successful `to_payload`, and the panic on a concrete
non-map stream element. -/
theorem C5_structural_mismatch_witness :
    (∃ n1 n2 data attrs,
      AvroValue.record [("data", .bytes [3]), ("attributes", .map [])] =
        .record [(n1, .bytes data), (n2, .map attrs)] ∧
      (⟨[3], []⟩ : Payload) = ⟨data, attributes_to_strings attrs⟩) ∧
    load_services_ffprobe_response (.record [("request_id", .long 9),
        ("streams", .array [.string "oops"])]) = none :=
  ⟨C5_structural_mismatch.1 _ ⟨[3], []⟩ rfl,
   C5_structural_mismatch.2.2 9 [.string "oops"] (.string "oops") _ _
      (List.mem_singleton.mpr rfl) rfl⟩

/-- C6: every encode-side conversion of an `Unrecognized`
(`NotImplemented`) fallback variant panics (modelled `none`) instead of
producing a wire literal or a typed error: the track-kind and
probe-response-kind enum writers, and `Message::dump` on messages whose
stream unit carries the fallback track kind or whose notify kind is the
fallback. -/
theorem C6_encode_fallback_panics :
    get_track_type_enum .notImplemented = none ∧
    get_services_ffprobe_response_type_avro .notImplemented = none ∧
    (∀ sn tn u e v a l, Message.dump
      (.unitElementMessage ⟨sn, tn, .notImplemented, u⟩ e v a l) = none) ∧
    (∀ sn tn u sm nt, Message.dump
      (.notifyMessage ⟨sn, tn, .notImplemented, u⟩ sm nt) = none) ∧
    (∀ sn tn tt u sm, Message.dump
      (.notifyMessage ⟨sn, tn, tt, u⟩ sm .notImplemented) = none) ∧
    (∀ rid sn tn u values, Message.dump
      (.streamTrackUnitElementsResponse rid ⟨sn, tn, .notImplemented, u⟩
        values) = none) ∧
    (∀ rid sn tracks t, t ∈ tracks → t.track_type = .notImplemented →
      Message.dump (.streamTracksResponse rid sn tracks) = none) := by
  refine ⟨rfl, rfl, fun sn tn u e v a l => ?_, fun sn tn u sm nt => ?_,
    fun sn tn tt u sm => ?_, fun rid sn tn u values => ?_,
    fun rid sn tracks t hmem htt => ?_⟩
  · simp [Message.dump, build_unit_element_message, get_stream_unit,
      get_track_type_enum]
  · cases nt <;>
      simp [Message.dump, build_notify_message, get_stream_unit,
        get_track_type_enum]
  · simp [Message.dump]
  · simp [Message.dump, build_stream_track_unit_elements_response,
      get_stream_unit, get_track_type_enum]
  · simp only [Message.dump, build_stream_tracks_response]
    rw [map_all_of_mem_none (List.mem_map_of_mem _ hmem)
      (by rw [htt]; rfl)]
    rfl

/-- C6 witness: `Message::dump` panics on a concrete message whose stream
unit carries the fallback track kind. -/
theorem C6_encode_fallback_panics_witness :
    Message.dump (.streamTracksResponse 1 (List.replicate 16 0)
      [⟨.notImplemented, List.replicate 16 0⟩]) = none :=
  C6_encode_fallback_panics.2.2.2.2.2.2 1 (List.replicate 16 0) _
    ⟨.notImplemented, List.replicate 16 0⟩ (List.mem_singleton.mpr rfl) rfl

/-- C7: the array-of-sub-records loaders are fail-closed — whenever any
element of the decoded array fails to map to its domain sub-record, the
whole message maps to a parsing error, never to a message carrying a
partial collection: the payload value list of
`StreamTrackUnitElementsResponse`, the unit list of
`StreamTrackUnitsResponse`, and the track listing of
`StreamTracksResponse` (where per-element failure means the element's
structural mismatch, `track_info_of_value t = some none`, and the remaining
elements do not hit the byte-copy panic). -/
theorem C7_fail_closed_collections :
    (∀ n1 n2 n3 m1 m2 m3 m4 (rid : Int) (sn tn : List Nat) (j : Nat)
      (ttl : String) (u : Int) (values : List AvroValue) (e : AvroValue),
      e ∈ values → to_payload e = none →
      load_stream_track_unit_elements_response
          (.record [(n1, .long rid),
            (n2, .record [(m1, .bytes sn), (m2, .bytes tn),
              (m3, .enum j ttl), (m4, .long u)]),
            (n3, .array values)]) =
        some (.parsingError "Not all payload values were parsed correctly")) ∧
    (∀ n1 n2 n3 n4 n5 m1 m2 m3 m4 (rid : Int) (sn tn : List Nat) (j : Nat)
      (ttl : String) (u fm tm : Int) (units : List AvroValue)
      (e : AvroValue), e ∈ units → unit_of_value e = none →
      load_stream_track_units_response
          (.record [(n1, .long rid),
            (n2, .record [(m1, .bytes sn), (m2, .bytes tn),
              (m3, .enum j ttl), (m4, .long u)]),
            (n3, .long fm), (n4, .long tm), (n5, .array units)]) =
        some (.parsingError "Not all payload units were parsed correctly")) ∧
    (∀ n1 n2 n3 (rid : Int) (sn : List Nat) (tracks : List AvroValue)
      (t : AvroValue), sn.length ≤ STREAM_NAME_MAX_LENGTH →
      t ∈ tracks → track_info_of_value t = some none →
      (∀ t' ∈ tracks, track_info_of_value t' ≠ none) →
      load_stream_tracks_response
          (.record [(n1, .long rid), (n2, .bytes sn), (n3, .array tracks)]) =
        some (.parsingError "Not all track info records are parsed well.")) := by
  refine ⟨fun n1 n2 n3 m1 m2 m3 m4 rid sn tn j ttl u values e hmem he => ?_,
    fun n1 n2 n3 n4 n5 m1 m2 m3 m4 rid sn tn j ttl u fm tm units e hmem
      he => ?_,
    fun n1 n2 n3 rid sn tracks t hsn hmem ht hall => ?_⟩
  · simp only [load_stream_track_unit_elements_response]
    rw [if_pos (length_filterMap_lt_of_mem_none hmem he)]
  · simp only [load_stream_track_units_response]
    rw [if_pos (length_filterMap_lt_of_mem_none hmem he)]
  · obtain ⟨r, hr, hlt⟩ := map_all_partial_lt hmem ht hall
    simp only [load_stream_tracks_response]
    rw [fill_byte_array_of_le hsn]
    simp only [Option.some_bind]
    rw [hr]
    simp only [Option.map_some']
    rw [if_pos hlt]

/-- C7 witness: the fail-closed rule at concrete arrays each containing one
unmappable element. -/
theorem C7_fail_closed_collections_witness :
    load_stream_track_unit_elements_response
        (.record [("request_id", .long 1),
          ("stream_unit", .record [("stream_name", .bytes []),
            ("track_name", .bytes []), ("track_type", .enum 0 "VIDEO"),
            ("unit", .long 0)]),
          ("values", .array [.long 5])]) =
      some (.parsingError "Not all payload values were parsed correctly") ∧
    load_stream_tracks_response
        (.record [("request_id", .long 1), ("stream_name", .bytes [9]),
          ("tracks", .array [.record [("name", .long 3)]])]) =
      some (.parsingError "Not all track info records are parsed well.") :=
  ⟨C7_fail_closed_collections.1 _ _ _ _ _ _ _ 1 [] [] 0 "VIDEO" 0
      [.long 5] (.long 5) (List.mem_singleton.mpr rfl) rfl,
   C7_fail_closed_collections.2.2 _ _ _ 1 [9]
      [.record [("name", .long 3)]] (.record [("name", .long 3)])
      (by decide) (List.mem_singleton.mpr rfl) rfl
      (by intro t' ht'
          rw [List.mem_singleton.mp ht']
          exact fun h => by cases h)⟩

/-- C8: the unit-index range encoders serialize the stream unit's sequence
number as the constant `0` and `Message::dump` discards the input `unit`
field for `StreamTrackUnitsRequest`/`StreamTrackUnitsResponse`: `dump` is
invariant under changing the sequence number, and a round trip of a valid
instance returns it with sequence number `0` (so a nonzero sequence number
is not preserved). -/
theorem C8_units_sequence_number_not_preserved :
    (∀ rid topic (su : Unit) (u' : Int) (f t : Nat),
      Message.dump (.streamTrackUnitsRequest rid topic su f t) =
        Message.dump (.streamTrackUnitsRequest rid topic
          { su with unit := u' } f t)) ∧
    (∀ rid (su : Unit) (u' : Int) (f t : Nat) (units : List Int),
      Message.dump (.streamTrackUnitsResponse rid su f t units) =
        Message.dump (.streamTrackUnitsResponse rid
          { su with unit := u' } f t units)) ∧
    (∀ rid topic (sn tn : List Nat) (tt : TrackType) (u : Int) (f t : Nat),
      sn.length = STREAM_NAME_MAX_LENGTH →
      tn.length = TRACK_NAME_MAX_LENGTH → tt ≠ .notImplemented →
      f ≤ I64_MAX → t ≤ I64_MAX →
      round_trip (.streamTrackUnitsRequest rid topic ⟨sn, tn, tt, u⟩ f t) =
        some (.streamTrackUnitsRequest rid topic ⟨sn, tn, tt, 0⟩ f t)) ∧
    (∀ rid (sn tn : List Nat) (tt : TrackType) (u : Int) (f t : Nat)
      (units : List Int), sn.length = STREAM_NAME_MAX_LENGTH →
      tn.length = TRACK_NAME_MAX_LENGTH → tt ≠ .notImplemented →
      f ≤ I64_MAX → t ≤ I64_MAX →
      round_trip (.streamTrackUnitsResponse rid ⟨sn, tn, tt, u⟩ f t units) =
        some (.streamTrackUnitsResponse rid ⟨sn, tn, tt, 0⟩ f t units)) := by
  refine ⟨fun rid topic su u' f t => ?_, fun rid su u' f t units => ?_,
    fun rid topic sn tn tt u f t hs ht htt hf hto =>
      round_trip_stream_track_units_request hs ht htt hf hto,
    fun rid sn tn tt u f t units hs ht htt hf hto =>
      round_trip_stream_track_units_response hs ht htt hf hto⟩
  · cases su
    rfl
  · cases su
    rfl

/-- C8 witness: a concrete valid request with sequence number `7` round
trips to sequence number `0`. -/
theorem C8_units_sequence_number_not_preserved_witness :
    round_trip (.streamTrackUnitsRequest 2 "topic"
        ⟨List.replicate 16 3, List.replicate 16 4, .video, 7⟩ 10 20) =
      some (.streamTrackUnitsRequest 2 "topic"
        ⟨List.replicate 16 3, List.replicate 16 4, .video, 0⟩ 10 20) :=
  C8_units_sequence_number_not_preserved.2.2.1 2 "topic" _ _ .video 7 10 20
    (by decide) (by decide) (by decide) (by decide) (by decide)

/-- C10 counterexample: `Message::dump` does not return `Ok` for every
`StreamTrackUnitsRequest` whose bounds fit `i64` — when the stream unit
carries the fallback track kind it panics (modelled `none`) although
`from_ms = to_ms = 0` both fit. -/
theorem C10_counterexample :
    Message.dump (.streamTrackUnitsRequest 0 "t"
        ⟨List.replicate 16 0, List.replicate 16 0, .notImplemented, 0⟩
        0 0) = none ∧
    (0 : Nat) ≤ I64_MAX := by
  exact ⟨rfl, by decide⟩

/-- C10 (amended): for the unit-index range messages, `Message::dump`
returns the typed range `Err` (producing no bytes) whenever `from_ms` or
`to_ms` exceeds `i64::MAX`; when both fit, it returns `Ok` with an encoded
envelope provided the track kind is encodable, and panics on the
`Unrecognized` track kind. -/
theorem C10_dump_range_check :
    (∀ rid topic (su : Unit) (f t : Nat), I64_MAX < f ∨ I64_MAX < t →
      Message.dump (.streamTrackUnitsRequest rid topic su f t) =
        some (.error ("Unable to serialize from_ms (" ++
          debug_try_from_i64 f ++ ")/to_ms (" ++ debug_try_from_i64 t ++
          ") to AVRO Long field."))) ∧
    (∀ rid (su : Unit) (f t : Nat) (units : List Int),
      I64_MAX < f ∨ I64_MAX < t →
      Message.dump (.streamTrackUnitsResponse rid su f t units) =
        some (.error ("Unable to serialize from_ms (" ++
          debug_try_from_i64 f ++ ")/to_ms (" ++ debug_try_from_i64 t ++
          ") to AVRO Long field."))) ∧
    (∀ rid topic (su : Unit) (f t : Nat), f ≤ I64_MAX → t ≤ I64_MAX →
      su.track_type ≠ .notImplemented →
      ∃ p, Message.dump (.streamTrackUnitsRequest rid topic su f t) =
        some (.ok p)) ∧
    (∀ rid (su : Unit) (f t : Nat) (units : List Int), f ≤ I64_MAX →
      t ≤ I64_MAX → su.track_type ≠ .notImplemented →
      ∃ p, Message.dump (.streamTrackUnitsResponse rid su f t units) =
        some (.ok p)) ∧
    (∀ rid topic (su : Unit) (f t : Nat), f ≤ I64_MAX → t ≤ I64_MAX →
      su.track_type = .notImplemented →
      Message.dump (.streamTrackUnitsRequest rid topic su f t) = none) := by
  refine ⟨fun rid topic su f t h => ?_, fun rid su f t units h => ?_,
    fun rid topic su f t hf hto htt => ?_,
    fun rid su f t units hf hto htt => ?_,
    fun rid topic su f t hf hto htt => ?_⟩
  · simp only [Message.dump]
    rw [if_neg (by omega)]
  · simp only [Message.dump]
    rw [if_neg (by omega)]
  · obtain ⟨i, s, henum, _⟩ := get_track_type_enum_literal htt
    simp only [Message.dump]
    rw [if_pos ⟨hf, hto⟩]
    unfold build_stream_track_units_request get_stream_unit
    rw [henum]
    exact ⟨_, rfl⟩
  · obtain ⟨i, s, henum, _⟩ := get_track_type_enum_literal htt
    simp only [Message.dump]
    rw [if_pos ⟨hf, hto⟩]
    unfold build_stream_track_units_response get_stream_unit
    rw [henum]
    exact ⟨_, rfl⟩
  · simp only [Message.dump]
    rw [if_pos ⟨hf, hto⟩]
    simp [build_stream_track_units_request, get_stream_unit, htt,
      get_track_type_enum]

/-- C10 witness: the typed range error at `from_ms = 2^63` (exceeding
`i64::MAX`) and an `Ok` result at small bounds, both on concrete
requests. -/
theorem C10_dump_range_check_witness :
    Message.dump (.streamTrackUnitsRequest 0 "t"
        ⟨List.replicate 16 0, List.replicate 16 0, .video, 0⟩
        (2 ^ 63) 0) =
      some (.error ("Unable to serialize from_ms (" ++
        debug_try_from_i64 (2 ^ 63) ++ ")/to_ms (" ++
        debug_try_from_i64 0 ++ ") to AVRO Long field.")) ∧
    (∃ p, Message.dump (.streamTrackUnitsRequest 0 "t"
        ⟨List.replicate 16 0, List.replicate 16 0, .video, 0⟩ 3 4) =
      some (.ok p)) :=
  ⟨C10_dump_range_check.1 0 "t" _ (2 ^ 63) 0 (by decide),
   C10_dump_range_check.2.2.1 0 "t"
      ⟨List.replicate 16 0, List.replicate 16 0, .video, 0⟩ 3 4
      (by decide) (by decide) (by decide)⟩

/-- C3: for every input byte buffer (and every catalog containing the
envelope schema, as every constructed catalog does), `read_protocol_message`
returns a typed `Result` and never panics, with the claimed error taxonomy:
outer decode failure, non-record envelope, wrong envelope shape, non-UTF-8
schema field, schema name absent from the catalog (the error names the
offending string), inner payload decode failure (reported distinctly from
every outer failure), and `Ok((schema_name, value))` on success. -/
theorem C3_read_protocol_message_contract (dir : List String)
    (d : String → List Nat → Option AvroValue) (input : List Nat)
    (henv : MESSAGE_ENVELOPE_SCHEMA ∈ dir) :
    (∃ r, read_protocol_message dir d input = some r) ∧
    (d MESSAGE_ENVELOPE_SCHEMA input = none →
      read_protocol_message dir d input =
        some (.error "Failed to deserialize the outer message")) ∧
    (∀ v, d MESSAGE_ENVELOPE_SCHEMA input = some v →
      (∀ fields, v ≠ .record fields) →
      read_protocol_message dir d input =
        some (.error "Failed to parse/match outer AVRO Record")) ∧
    (∀ fields, d MESSAGE_ENVELOPE_SCHEMA input = some (.record fields) →
      envelope_shape fields = none →
      read_protocol_message dir d input =
        some (.error "No outer AVRO record (MessageEnvelope) matched")) ∧
    (∀ fields s p, d MESSAGE_ENVELOPE_SCHEMA input = some (.record fields) →
      envelope_shape fields = some (s, p) → utf8_bytes_to_string s = none →
      read_protocol_message dir d input =
        some (.error "Failed to parse schema name, not a valid UTF-8")) ∧
    (∀ fields s p name,
      d MESSAGE_ENVELOPE_SCHEMA input = some (.record fields) →
      envelope_shape fields = some (s, p) →
      utf8_bytes_to_string s = some name → name ∉ dir →
      read_protocol_message dir d input =
        some (.error ("No valid schema found in schema catalog for the schema (" ++
          name ++ ") in serialized record"))) ∧
    (∀ fields s p name,
      d MESSAGE_ENVELOPE_SCHEMA input = some (.record fields) →
      envelope_shape fields = some (s, p) →
      utf8_bytes_to_string s = some name → name ∈ dir → d name p = none →
      read_protocol_message dir d input =
        some (.error "Failed to parse inner AVRO serialized record")) ∧
    (∀ fields s p name inner,
      d MESSAGE_ENVELOPE_SCHEMA input = some (.record fields) →
      envelope_shape fields = some (s, p) →
      utf8_bytes_to_string s = some name → name ∈ dir →
      d name p = some inner →
      read_protocol_message dir d input =
        some (.ok (name, inner))) := by
  unfold read_protocol_message
  rw [if_pos henv]
  refine ⟨⟨_, rfl⟩, fun h => by rw [h], fun v hv hnr => ?_,
    fun fields hf hshape => ?_, fun fields s p hf hshape hutf => ?_,
    fun fields s p name hf hshape hutf hnotin => ?_,
    fun fields s p name hf hshape hutf hin hd => ?_,
    fun fields s p name inner hf hshape hutf hin hd => ?_⟩
  · rw [hv]
    cases v <;> first | rfl | exact absurd rfl (hnr _)
  · rw [hf]
    dsimp only
    split
    · simp only [envelope_shape] at hshape
      split at hshape
      · cases hshape
      · next hc => rw [if_neg hc]
    · rfl
  · rw [hf, envelope_shape_eq_some.mp hshape]
    dsimp only
    rw [if_pos ⟨rfl, rfl⟩, hutf]
  · rw [hf, envelope_shape_eq_some.mp hshape]
    dsimp only
    rw [if_pos ⟨rfl, rfl⟩, hutf]
    dsimp only
    rw [if_neg hnotin]
  · rw [hf, envelope_shape_eq_some.mp hshape]
    dsimp only
    rw [if_pos ⟨rfl, rfl⟩, hutf]
    dsimp only
    rw [if_pos hin, hd]
  · rw [hf, envelope_shape_eq_some.mp hshape]
    dsimp only
    rw [if_pos ⟨rfl, rfl⟩, hutf]
    dsimp only
    rw [if_pos hin, hd]

/-- C3 witness: the unknown-schema case at a concrete catalog and decoder —
a syntactically valid UTF-8 schema name (`"z"`, byte `122`) absent from the
catalog yields the typed unknown-schema error naming `z`. -/
theorem C3_read_protocol_message_contract_witness :
    read_protocol_message [MESSAGE_ENVELOPE_SCHEMA]
        (fun n _ => if n = MESSAGE_ENVELOPE_SCHEMA then
          some (.record [("schema", .bytes [122]),
            ("payload", .bytes [1, 2, 3])]) else none)
        [0, 0, 0] =
      some (.error ("No valid schema found in schema catalog for the schema (" ++
        "z" ++ ") in serialized record")) :=
  (C3_read_protocol_message_contract [MESSAGE_ENVELOPE_SCHEMA] _ [0, 0, 0]
      (by decide)).2.2.2.2.2.1
    [("schema", .bytes [122]), ("payload", .bytes [1, 2, 3])]
    [122] [1, 2, 3] "z" (by rfl) (by rfl) (by rfl) (by decide)

end Proto
